import Mathlib

/-!
Verification of the CST→AST lowering engine of
`vul_witch/ast/backend/tree_sitter/parser.py` against its specification.

The Python source is shallowly embedded:
* a tree-sitter CST node becomes `TS` (type tag, raw text, `has_error`
  flag, start/end points, children);
* exceptions become the error side of `Except PyExc`: `CodeError`,
  `Unreachable`, `NotImplementedError`, `AssertionError`, `IndexError`,
  `ValueError` raised by the Python code are the constructors of `PyExc`,
  and `outOfFuel` is the model's representation of non-termination
  (every recursive function takes a fuel parameter);
* the mutable tree-sitter cursor is embedded in two ways:
  - for the bulk of the engine, a consume operation working on the
    sibling sequence of the current node is a function
    `Sib → Except PyExc (α × Sib)`, where
    `Sib` is the current node plus the remaining right siblings and
    `adv` is `cursor.goto_next_sibling()` (which in tree-sitter leaves
    the cursor in place when there is no next sibling — hence `adv` is
    the identity on the last sibling, exactly like the source);
  - for the cursor-contract claim, an explicit path-based cursor
    (`Cursor`, a tree plus a child-index path) with the real
    `goto_next_sibling` semantics.
-/

/-! ## Locations and ranges (`vul_witch/ast/location.py`) -/

/-- `CodeLocation(line, column)`. -/
structure Loc where
  line : Nat
  column : Nat
deriving DecidableEq, Repr

/-- `CodeRange(file, start, end)`; the `end` field is named `stop` because
`end` is a Lean keyword. -/
structure CRange where
  file : String
  start : Loc
  stop : Loc
deriving DecidableEq, Repr

/-- The parser's `_source_file` field.  It is only ever copied into the
`file` component of produced `CodeRange`s, so it is lifted to a constant. -/
def theFile : String := "input.c"

/-! ## The CST model (tree-sitter input boundary) -/

/-- A tree-sitter CST node: type tag, raw source text (`node.text`),
`has_error` flag for the subtree, start/end points, ordered children. -/
inductive TS where
  | node (ty : String) (text : String) (hasErr : Bool)
      (startLoc stopLoc : Loc) (children : List TS)

namespace TS

def ty : TS → String
  | .node t _ _ _ _ _ => t

def text : TS → String
  | .node _ x _ _ _ _ => x

def hasErr : TS → Bool
  | .node _ _ e _ _ _ => e

def startLoc : TS → Loc
  | .node _ _ _ s _ _ => s

def stopLoc : TS → Loc
  | .node _ _ _ _ e _ => e

def children : TS → List TS
  | .node _ _ _ _ _ cs => cs

end TS

/-- `TreeSitterHelper.from_ts_node`: the `CodeRange` of the cursor's
current node. -/
def rangeOf (t : TS) : CRange := ⟨theFile, t.startLoc, t.stopLoc⟩

/-! ## Exceptions (`vul_witch/ast/error.py` and Python built-ins) -/

/-- The exceptions that can escape the lowering engine.
`codeError` and `unreachableE` are `CodeError`/`Unreachable` from
`vul_witch/ast/error.py`; `notImplemented`, `assertFail`, `indexError`
and `valueError` are Python's `NotImplementedError`, `AssertionError`,
`IndexError` and `ValueError`; `outOfFuel` is a model artifact standing
for non-termination of the source's `while` loops. -/
inductive PyExc where
  | codeError (msg : String) (range : CRange)
  | unreachableE (msg : Option String)
  | notImplemented
  | assertFail
  | indexError
  | valueError
  | outOfFuel
deriving DecidableEq, Repr

abbrev M (α : Type) := Except PyExc α

/-! ## The source-side enums whose exact member strings matter -/

/-- `TreeSitterCPrimitivType` (sic) from the source, with the exact
member value strings. -/
inductive TreeSitterCPrimitivType where
  | Bool | Char | Int | Float | Double | Void
  | SizeT | SsizeT | PtrdiffT | IntptrT | UintptrT | CharptrT
  | NullptrT | MaxAlignT
  | Int8T | Int16T | Int32T | Int64T
  | Uint8T | Uint16T | Uint32T | Uint64T
  | Char8T | Char16T | Char32T | Char64T
deriving DecidableEq, Repr

def TreeSitterCPrimitivType.value : TreeSitterCPrimitivType → String
  | .Bool => "bool"
  | .Char => "char"
  | .Int => "int"
  | .Float => "float"
  | .Double => "double"
  | .Void => "void"
  | .SizeT => "size_t"
  | .SsizeT => "ssize_t"
  | .PtrdiffT => "ptrdiff_t"
  | .IntptrT => "intptr_t"
  | .UintptrT => "uintptr_t"
  | .CharptrT => "charptr_t"
  | .NullptrT => "nullptr_t"
  | .MaxAlignT => "max_align_t"
  | .Int8T => "int8_t"
  | .Int16T => "int16_t"
  | .Int32T => "int32_t"
  | .Int64T => "int64_t"
  | .Uint8T => "uint8_t"
  | .Uint16T => "uint16_t"
  | .Uint32T => "uint32_t"
  | .Uint64T => "uint64_t"
  | .Char8T => "char8_t"
  | .Char16T => "char16_t"
  | .Char32T => "char32_t"
  | .Char64T => "char64_t"

/-- Python values compared by `==` inside
`_consume_c_primitive_type_specifier`: the raw token is a `str` and the
comparand is a `TreeSitterCPrimitivType` enum *member* (not its
`.value`).  Python's `==` between a `str` and an enum member is `False`. -/
inductive PyVal where
  | str (s : String)
  | enumMember (m : TreeSitterCPrimitivType)
deriving DecidableEq, Repr

/-- Python `==` on `PyVal`: equal only within the same type. -/
def pyEq : PyVal → PyVal → Bool
  | .str a, .str b => a == b
  | .enumMember a, .enumMember b => a == b
  | _, _ => false

/-- `TreeSitterPreprocessElseType` from the source.  The `Elif` member's
value string is copied verbatim from the source, including its
misspelling of the tree-sitter node type `preproc_elif`. -/
inductive TreeSitterPreprocessElseType where
  | Else | Elif
deriving DecidableEq, Repr

def TreeSitterPreprocessElseType.value : TreeSitterPreprocessElseType → String
  | .Else => "preproc_else"
  | .Elif => "proproc_elif"

/-! ## AST node kind enums (`vul_witch/ast/node.py`) -/

inductive StorageClassSpecifierKind where
  | Extern | Static | ThreadLocal | Auto | Register
deriving DecidableEq, Repr

inductive TypeQualifierKind where
  | Const | Restrict | Volatile | Atomic | Nonnull | NullUnspecified | Nullable
deriving DecidableEq, Repr

inductive FunctionSpecifierKind where
  | Inline | Noreturn
deriving DecidableEq, Repr

inductive PrimitiveTypeSpecifierKind where
  | Void | Char | Short | Int | Long | Float | Double | Signed | Unsigned
  | Bool | Complex
deriving DecidableEq, Repr

def PrimitiveTypeSpecifierKind.value : PrimitiveTypeSpecifierKind → String
  | .Void => "void"
  | .Char => "char"
  | .Short => "short"
  | .Int => "int"
  | .Long => "long"
  | .Float => "float"
  | .Double => "double"
  | .Signed => "signed"
  | .Unsigned => "unsigned"
  | .Bool => "_Bool"
  | .Complex => "_Complex"

/-- `node.PrimitiveTypeSpecifierKind(value)`: Python's `Enum(value)` call,
which raises `ValueError` when no member has that value. -/
def PrimitiveTypeSpecifierKind.ofValue? (s : String) : Option PrimitiveTypeSpecifierKind :=
  if s = "void" then some .Void
  else if s = "char" then some .Char
  else if s = "short" then some .Short
  else if s = "int" then some .Int
  else if s = "long" then some .Long
  else if s = "float" then some .Float
  else if s = "double" then some .Double
  else if s = "signed" then some .Signed
  else if s = "unsigned" then some .Unsigned
  else if s = "_Bool" then some .Bool
  else if s = "_Complex" then some .Complex
  else none

inductive ArraySizeKind where
  | Unknown | VariableUnknown | VariableExpression | StaticExpression
deriving DecidableEq, Repr

inductive PreprocessPrimitiveType where
  | Identifier | NumberLiteral | CharLiteral
deriving DecidableEq, Repr

def PreprocessPrimitiveType.value : PreprocessPrimitiveType → String
  | .Identifier => "identifier"
  | .NumberLiteral => "number_literal"
  | .CharLiteral => "char_literal"

inductive PreprocessUnaryOperator where
  | Not | Negate | Minus | Plus
deriving DecidableEq, Repr

def PreprocessUnaryOperator.ofValue? (s : String) : Option PreprocessUnaryOperator :=
  if s = "!" then some .Not
  else if s = "~" then some .Negate
  else if s = "-" then some .Minus
  else if s = "+" then some .Plus
  else none

inductive PreprocessBinaryOperator where
  | Add | Sub | Mul | Div | Mod | ShortOr | ShortAnd | Or | Xor | And
  | Equal | NotEqual | Greater | GreaterEq | LessEq | Less
  | LeftShift | RightShift
deriving DecidableEq, Repr

def PreprocessBinaryOperator.ofValue? (s : String) : Option PreprocessBinaryOperator :=
  if s = "+" then some .Add
  else if s = "-" then some .Sub
  else if s = "*" then some .Mul
  else if s = "/" then some .Div
  else if s = "%" then some .Mod
  else if s = "||" then some .ShortOr
  else if s = "&&" then some .ShortAnd
  else if s = "|" then some .Or
  else if s = "^" then some .Xor
  else if s = "&" then some .And
  else if s = "==" then some .Equal
  else if s = "!=" then some .NotEqual
  else if s = ">" then some .Greater
  else if s = ">=" then some .GreaterEq
  else if s = "<=" then some .LessEq
  else if s = "<" then some .Less
  else if s = "<<" then some .LeftShift
  else if s = ">>" then some .RightShift
  else none

inductive IncludeTargetType where
  | SystemLibString | StringLiteral | Identifier | CallExpression
deriving DecidableEq, Repr

def IncludeTargetType.value : IncludeTargetType → String
  | .SystemLibString => "system_lib_string"
  | .StringLiteral => "string_literal"
  | .Identifier => "identifier"
  | .CallExpression => "preproc_call_expression"

def IncludeTargetType.ofValue? (s : String) : Option IncludeTargetType :=
  if s = "system_lib_string" then some .SystemLibString
  else if s = "string_literal" then some .StringLiteral
  else if s = "identifier" then some .Identifier
  else if s = "preproc_call_expression" then some .CallExpression
  else none

/-! ## The AST node catalogue (`vul_witch/ast/node.py`)

One inductive whose constructors are the concrete dataclasses actually
constructed by the lowering engine.  Every constructor's first field is
the node's `CodeRange`, mirroring `AstNode.code_range`. -/

inductive Ast where
  | translationUnit (range : CRange) (nodes : List Ast)
  | identifier (range : CRange) (name : String)
  | declaration (range : CRange) (specifiers : List Ast)
      (initDeclarators : Option (List Ast))
  -- preprocess nodes
  | defineDirective (range : CRange) (ident : String) (replacement : Option String)
  | functionDefineDirective (range : CRange) (ident : String)
      (params : List String) (replacement : Option String)
  | undefineDirective (range : CRange) (ident : String)
  | errorDirective (range : CRange) (message : Option String)
  | pragmaDirective (range : CRange) (rawDirective : Option String)
  | lineDirective (range : CRange) (rawDirective : String)
  | includeDirectiveStr (range : CRange) (targetType : IncludeTargetType)
      (target : String)
  | includeDirectiveCall (range : CRange) (targetType : IncludeTargetType)
      (target : Ast)
  | ifDirective (range : CRange) (group : Option (List Ast)) (condition : Ast)
  | ifDefDirective (range : CRange) (group : Option (List Ast)) (ident : String)
  | ifUndefDirective (range : CRange) (group : Option (List Ast)) (ident : String)
  | elifDirective (range : CRange) (group : Option (List Ast)) (condition : Ast)
  | elseDirective (range : CRange) (group : Option (List Ast))
  | endIfDirective (range : CRange)
  | ifSectionDirective (range : CRange) (ifGroup : Ast)
      (elifGroups : Option (List Ast)) (elseGroup : Option Ast) (endif : Ast)
  -- preprocess expressions
  | preprocessPrimitive (range : CRange) (ty : PreprocessPrimitiveType) (value : String)
  | preprocessDefined (range : CRange) (ident : String)
  | preprocessUnaryExpression (range : CRange) (op : PreprocessUnaryOperator)
      (operand : Ast)
  | preprocessBinaryExpression (range : CRange) (op : PreprocessBinaryOperator)
      (lhs rhs : Ast)
  | parenthesizedPreprocessExpression (range : CRange) (expression : Ast)
  | preprocessCallExpression (range : CRange) (callee : String) (args : List Ast)
  -- declaration specifiers
  | storageClassSpecifier (range : CRange) (kind : StorageClassSpecifierKind)
  | typeQualifier (range : CRange) (kind : TypeQualifierKind)
  | functionSpecifier (range : CRange) (kind : FunctionSpecifierKind)
  | alignmentTypeSpecifier (range : CRange) (typeName : Ast)
  | alignmentConstExpressionSpecifier (range : CRange) (expression : Ast)
  -- type specifiers
  | primitiveTypeSpecifier (range : CRange) (kind : PrimitiveTypeSpecifierKind)
  | typedefName (range : CRange) (typeIdentifier : String)
  | macroTypeSpecifier (range : CRange) (ident : Ast) (typeName : Ast)
  | structOrUnionSpecifier (range : CRange) (isStruct : Bool)
      (ident : Option Ast) (declarations : Option (List Ast))
  | enumSpecifier (range : CRange) (ident : Option Ast)
      (enumerators : Option (List Ast))
  | typeName (range : CRange) (specifierQualifierList : List Ast)
      (declarator : Option Ast)
  -- struct members
  | structField (range : CRange) (specifierQualifierList : List Ast)
      (declarators : List Ast) (attr : Option Ast)
  | structDeclarator (range : CRange) (declarator : Ast) (bitWidth : Option Ast)
  | macroDefStructDeclaration (range : CRange) (define : Ast)
  | macroFunctionDefStructDeclaration (range : CRange) (functionDef : Ast)
  | macroDirectiveStructDeclaration (range : CRange) (call : Ast)
  | macroStructDeclarationIfGroup (range : CRange)
      (declarations : Option (List Ast)) (condition : Ast)
  | macroStructDeclarationIfdefGroup (range : CRange)
      (declarations : Option (List Ast)) (ident : Ast) (isIfndef : Bool)
  | macroStructDeclarationElifGroup (range : CRange)
      (declarations : Option (List Ast)) (condition : Ast)
  | macroStructDeclarationElseGroup (range : CRange)
      (declarations : Option (List Ast))
  | macroConditionalStructDeclaration (range : CRange) (ifGroup : Ast)
      (elifGroups : Option (List Ast)) (elseGroup : Option Ast)
  -- enumerators
  | enumerator (range : CRange) (ident : Ast) (expression : Option Ast)
  | macroEnumeratorIfGroup (range : CRange)
      (enumerators : Option (List Ast)) (condition : Ast)
  | macroEnumeratorIfdefGroup (range : CRange)
      (enumerators : Option (List Ast)) (ident : Ast) (isIfndef : Bool)
  | macroEnumeratorElifGroup (range : CRange)
      (enumerators : Option (List Ast)) (condition : Ast)
  | macroEnumeratorElseGroup (range : CRange) (enumerators : Option (List Ast))
  | macroEnumeratorList (range : CRange) (ifGroup : Ast)
      (elifGroups : Option (List Ast)) (elseGroup : Option Ast)
  | macroDirectiveEnumerator (range : CRange) (call : Ast)
  -- declarators
  | identifierDeclarator (range : CRange) (ident : Ast)
  | pointerDeclarator (range : CRange)
      (typeQualifierList : Option (List Ast)) (declarator : Ast)
  | functionDeclarator (range : CRange) (declarator : Ast)
      (parameterTypeList : List Ast) (isVariadic : Bool)
  | arrayDeclarator (range : CRange) (declarator : Ast) (arraySize : Ast)
  | parenthesizedDeclarator (range : CRange) (declarator : Ast)
  | initDeclarator (range : CRange) (declarator : Ast) (initializer : Ast)
  | arraySize (range : CRange) (kind : ArraySizeKind)
      (typeQualifiers : Option (List Ast)) (expression : Option Ast)
  -- abstract declarators
  | abstractPointerDeclarator (range : CRange)
      (typeQualifierList : Option (List Ast)) (declarator : Option Ast)
  | abstractFunctionDeclarator (range : CRange) (declarator : Option Ast)
      (parameterTypeList : List Ast) (isVariadic : Bool)
  | abstractArrayDeclarator (range : CRange) (declarator : Option Ast)
      (arraySize : Ast)
  | abstractParenthesizedDeclarator (range : CRange) (declarator : Ast)
  | parameterDeclaration (range : CRange) (specifiers : List Ast)
      (declarator : Option Ast) (attributeList : Option (List Ast))
  | attributeNode (range : CRange) (args : List Ast)
  | identifierExpression (range : CRange) (ident : Ast)

/-- `AstNode.code_range` of any concrete node. -/
def Ast.range : Ast → CRange
  | .translationUnit r _ => r
  | .identifier r _ => r
  | .declaration r _ _ => r
  | .defineDirective r _ _ => r
  | .functionDefineDirective r _ _ _ => r
  | .undefineDirective r _ => r
  | .errorDirective r _ => r
  | .pragmaDirective r _ => r
  | .lineDirective r _ => r
  | .includeDirectiveStr r _ _ => r
  | .includeDirectiveCall r _ _ => r
  | .ifDirective r _ _ => r
  | .ifDefDirective r _ _ => r
  | .ifUndefDirective r _ _ => r
  | .elifDirective r _ _ => r
  | .elseDirective r _ => r
  | .endIfDirective r => r
  | .ifSectionDirective r _ _ _ _ => r
  | .preprocessPrimitive r _ _ => r
  | .preprocessDefined r _ => r
  | .preprocessUnaryExpression r _ _ => r
  | .preprocessBinaryExpression r _ _ _ => r
  | .parenthesizedPreprocessExpression r _ => r
  | .preprocessCallExpression r _ _ => r
  | .storageClassSpecifier r _ => r
  | .typeQualifier r _ => r
  | .functionSpecifier r _ => r
  | .alignmentTypeSpecifier r _ => r
  | .alignmentConstExpressionSpecifier r _ => r
  | .primitiveTypeSpecifier r _ => r
  | .typedefName r _ => r
  | .macroTypeSpecifier r _ _ => r
  | .structOrUnionSpecifier r _ _ _ => r
  | .enumSpecifier r _ _ => r
  | .typeName r _ _ => r
  | .structField r _ _ _ => r
  | .structDeclarator r _ _ => r
  | .macroDefStructDeclaration r _ => r
  | .macroFunctionDefStructDeclaration r _ => r
  | .macroDirectiveStructDeclaration r _ => r
  | .macroStructDeclarationIfGroup r _ _ => r
  | .macroStructDeclarationIfdefGroup r _ _ _ => r
  | .macroStructDeclarationElifGroup r _ _ => r
  | .macroStructDeclarationElseGroup r _ => r
  | .macroConditionalStructDeclaration r _ _ _ => r
  | .enumerator r _ _ => r
  | .macroEnumeratorIfGroup r _ _ => r
  | .macroEnumeratorIfdefGroup r _ _ _ => r
  | .macroEnumeratorElifGroup r _ _ => r
  | .macroEnumeratorElseGroup r _ => r
  | .macroEnumeratorList r _ _ _ => r
  | .macroDirectiveEnumerator r _ => r
  | .identifierDeclarator r _ => r
  | .pointerDeclarator r _ _ => r
  | .functionDeclarator r _ _ _ => r
  | .arrayDeclarator r _ _ => r
  | .parenthesizedDeclarator r _ => r
  | .initDeclarator r _ _ => r
  | .arraySize r _ _ _ => r
  | .abstractPointerDeclarator r _ _ => r
  | .abstractFunctionDeclarator r _ _ _ => r
  | .abstractArrayDeclarator r _ _ => r
  | .abstractParenthesizedDeclarator r _ => r
  | .parameterDeclaration r _ _ _ => r
  | .attributeNode r _ => r
  | .identifierExpression r _ => r

/-! ## The sibling-sequence cursor

Every `_consume_*` method of `TreeSitterCParser` is entered with the
cursor on the node to be consumed and internally only moves between that
node's siblings, or descends into the node and comes back with
`goto_parent()` before advancing.  Such a method is embedded as a
function on `Sib` — the current node plus its remaining right siblings.
`adv` is `cursor.goto_next_sibling()`: when the current node is the last
sibling, the tree-sitter call returns `False` and leaves the cursor in
place, so `adv` is the identity there. -/

structure Sib where
  cur : TS
  rest : List TS

/-- `cursor.goto_next_sibling()`, with tree-sitter's stay-in-place
behaviour on the last sibling. -/
def adv (s : Sib) : Sib :=
  match s.rest with
  | [] => s
  | c :: r => ⟨c, r⟩

/-- `cursor.goto_first_child()` plus the subsequent walk over the
children.  On a childless node the tree-sitter call fails and the cursor
stays on the node itself, which is what the `[]` branch mirrors. -/
def descend (t : TS) : Sib :=
  match t.children with
  | c :: cs => ⟨c, cs⟩
  | [] => ⟨t, []⟩

/-- `_consume_node_with_type`. -/
def consume_node_with_type (node_type : String) (s : Sib) : M Sib :=
  if s.cur.ty == node_type then .ok (adv s)
  else .error (.codeError ("expect node with type " ++ node_type) (rangeOf s.cur))

/-- `_consume_raw_content`.  `TreeSitterHelper.parse_raw_content` returns
`None` only when the cursor's node or its text is `None`, which cannot
happen in the model (`TS.text` is total), so the
`CodeError("empty code region")` branch is dead here. -/
def consume_raw_content (s : Sib) : M (String × Sib) :=
  .ok (s.cur.text, adv s)

/-- `_consume_tree_sitter_identifier`. -/
def consume_tree_sitter_identifier (s : Sib) : M (String × Sib) :=
  if s.cur.ty == "identifier" then
    -- `parse_raw_content` is total in the model, so the
    -- `CodeError("an empty identifier")` branch is dead.
    .ok (s.cur.text, adv s)
  else .error (.codeError "not an identifier node" (rangeOf s.cur))

/-- `_consume_c_identifier`. -/
def consume_c_identifier (s : Sib) : M (Ast × Sib) := do
  let code_range := rangeOf s.cur
  let (name, s) ← consume_tree_sitter_identifier s
  return (.identifier code_range name, s)

/-- `_consume_tree_sitter_type_identifier_as_c_identifier`. -/
def consume_tree_sitter_type_identifier_as_c_identifier (s : Sib) : M (Ast × Sib) := do
  if s.cur.ty != "type_identifier" then .error .assertFail else
  let code_range := rangeOf s.cur
  let (name, s) ← consume_raw_content s
  return (.identifier code_range name, s)

/-- `_try_consume_preprocess_arg`. -/
def try_consume_preprocess_arg (s : Sib) : M (Option String × Sib) :=
  if s.cur.ty == "preproc_arg" then do
    let (c, s) ← consume_raw_content s
    return (some c, s)
  else .ok (none, s)

/-! ## Preprocess expression lowering -/

/-- `_is_preprocess_primitive_expression`. -/
def is_preprocess_primitive_expression (t : TS) : Bool :=
  t.ty == PreprocessPrimitiveType.Identifier.value ||
  t.ty == PreprocessPrimitiveType.NumberLiteral.value ||
  t.ty == PreprocessPrimitiveType.CharLiteral.value

/-- `_consume_preprocess_primitive`.  Note the source's `else` branch
(char literals) also tags the node `NumberLiteral`, which the embedding
reproduces. -/
def consume_preprocess_primitive (s : Sib) : M (Ast × Sib) := do
  if !is_preprocess_primitive_expression s.cur then .error .assertFail else
  let code_range := rangeOf s.cur
  if s.cur.ty == "identifier" then
    let (ident, s) ← consume_tree_sitter_identifier s
    return (.preprocessPrimitive code_range .Identifier ident, s)
  else if s.cur.ty == PreprocessPrimitiveType.NumberLiteral.value then
    let (num, s) ← consume_raw_content s
    return (.preprocessPrimitive code_range .NumberLiteral num, s)
  else
    let (chr, s) ← consume_raw_content s
    return (.preprocessPrimitive code_range .NumberLiteral chr, s)

/-- `_consume_preprocess_defined`.  The source consumes a token of type
`"#defined"`, but the tree-sitter `preproc_defined` node is never of
that type, so the `CodeError` from `_consume_node_with_type` is what
this function actually produces; the remainder is embedded for
completeness. -/
def consume_preprocess_defined (s : Sib) : M (Ast × Sib) := do
  if s.cur.ty != "preproc_defined" then .error .assertFail else
  let start := s.cur.startLoc
  let s ← consume_node_with_type "#defined" s
  if s.cur.ty == "(" then
    let s ← consume_node_with_type "(" s
    let (ident, s) ← consume_tree_sitter_identifier s
    let stop := s.cur.stopLoc
    let s ← consume_node_with_type ")" s
    return (.preprocessDefined ⟨theFile, start, stop⟩ ident, s)
  else
    let stop := s.cur.stopLoc
    let (ident, s) ← consume_tree_sitter_identifier s
    return (.preprocessDefined ⟨theFile, start, stop⟩ ident, s)

/-- `_consume_preprocess_unary_operator`. -/
def consume_preprocess_unary_operator (s : Sib) : M (PreprocessUnaryOperator × Sib) :=
  match PreprocessUnaryOperator.ofValue? s.cur.ty with
  | none => .error .assertFail
  | some op => .ok (op, adv s)

/-- `_consume_preprocess_binary_operator`. -/
def consume_preprocess_binary_operator (s : Sib) : M (PreprocessBinaryOperator × Sib) :=
  match PreprocessBinaryOperator.ofValue? s.cur.ty with
  | none => .error .assertFail
  | some op => .ok (op, adv s)

mutual

/-- `_consume_preprocess_expression`. -/
def consume_preprocess_expression (fuel : Nat) (s : Sib) : M (Ast × Sib) :=
  match fuel with
  | 0 => .error .outOfFuel
  | fuel + 1 =>
    if is_preprocess_primitive_expression s.cur then
      consume_preprocess_primitive s
    else if s.cur.ty == "preproc_call_expression" then
      consume_preprocess_call_expression fuel s
    else if s.cur.ty == "preproc_defined" then
      consume_preprocess_defined s
    else if s.cur.ty == "preproc_unary_expression" then
      consume_preprocess_unary_expression fuel s
    else if s.cur.ty == "preproc_binary_expression" then
      consume_preprocess_binary_expression fuel s
    else if s.cur.ty == "preproc_parenthesized_expression" then
      consume_preprocess_parenthesized_expression fuel s
    else
      .error (.unreachableE none)

/-- `_consume_preprocess_call_expression`. -/
def consume_preprocess_call_expression (fuel : Nat) (s : Sib) : M (Ast × Sib) :=
  match fuel with
  | 0 => .error .outOfFuel
  | fuel + 1 => do
    if s.cur.ty != "preproc_call_expression" then .error .assertFail else
    let code_range := rangeOf s.cur
    let inner := descend s.cur
    let (callee, inner) ← consume_tree_sitter_identifier inner
    let (args, _) ← consume_preprocess_argument_list fuel inner
    return (.preprocessCallExpression code_range callee args, adv s)

/-- `_consume_preprocess_argument_list`.  Note the source never consumes
the opening parenthesis of the argument list, so on a real CST the first
iteration dispatches `consume_preprocess_expression` on the `"("` token. -/
def consume_preprocess_argument_list (fuel : Nat) (s : Sib) : M (List Ast × Sib) :=
  match fuel with
  | 0 => .error .outOfFuel
  | fuel + 1 => do
    if s.cur.ty != "argument_list" then .error .assertFail else
    let inner := descend s.cur
    if inner.cur.ty == ")" then
      return ([], adv s)
    else
      let (first, inner) ← consume_preprocess_expression fuel inner
      let (args, _) ← preprocess_argument_loop fuel [first] inner
      return (args, adv s)

/-- The `while not self._is_end_of_argument_list()` loop of
`_consume_preprocess_argument_list`. -/
def preprocess_argument_loop (fuel : Nat) (acc : List Ast) (s : Sib) :
    M (List Ast × Sib) :=
  match fuel with
  | 0 => .error .outOfFuel
  | fuel + 1 =>
    if s.cur.ty == ")" then .ok (acc, s)
    else do
      let s ← consume_node_with_type "," s
      let (e, s) ← consume_preprocess_expression fuel s
      preprocess_argument_loop fuel (acc ++ [e]) s

/-- `_consume_preprocess_unary_expression`. -/
def consume_preprocess_unary_expression (fuel : Nat) (s : Sib) : M (Ast × Sib) :=
  match fuel with
  | 0 => .error .outOfFuel
  | fuel + 1 => do
    if s.cur.ty != "preproc_unary_expression" then .error .assertFail else
    let code_range := rangeOf s.cur
    let inner := descend s.cur
    let (op, inner) ← consume_preprocess_unary_operator inner
    let (operand, _) ← consume_preprocess_expression fuel inner
    return (.preprocessUnaryExpression code_range op operand, adv s)

/-- `_consume_preprocess_binary_expression`. -/
def consume_preprocess_binary_expression (fuel : Nat) (s : Sib) : M (Ast × Sib) :=
  match fuel with
  | 0 => .error .outOfFuel
  | fuel + 1 => do
    if s.cur.ty != "preproc_binary_expression" then .error .assertFail else
    let code_range := rangeOf s.cur
    let inner := descend s.cur
    let (lhs, inner) ← consume_preprocess_expression fuel inner
    let (op, inner) ← consume_preprocess_binary_operator inner
    let (rhs, _) ← consume_preprocess_expression fuel inner
    return (.preprocessBinaryExpression code_range op lhs rhs, adv s)

/-- `_consume_preprocess_parenthesized_expression`. -/
def consume_preprocess_parenthesized_expression (fuel : Nat) (s : Sib) :
    M (Ast × Sib) :=
  match fuel with
  | 0 => .error .outOfFuel
  | fuel + 1 => do
    if s.cur.ty != "preproc_parenthesized_expression" then .error .assertFail else
    let code_range := rangeOf s.cur
    let inner := descend s.cur
    let inner ← consume_node_with_type "(" inner
    let (exp, inner) ← consume_preprocess_expression fuel inner
    let _ ← consume_node_with_type ")" inner
    return (.parenthesizedPreprocessExpression code_range exp, adv s)

end

/-! ## Stand-alone preprocessor directive parsers

These `_parse_*` methods are entered with the cursor on the directive
node and leave it there (`goto_parent` restores it; the caller
advances), so they are embedded as functions of the node alone. -/

/-- `_is_preprocess_directive_eq`.  The source indexes `directive[0]`
and scans blanks with `directive[start]`; on the empty string, or a
string of only blanks after `#`, that raises `IndexError`.  A
`preproc_directive` token's text always starts with `#` and contains a
name, so the model folds those out-of-range accesses into `false`. -/
def is_preprocess_directive_eq (directive target : String) : Bool :=
  match directive.data with
  | [] => false
  | c :: cs =>
    if c != '#' then false
    else (cs.dropWhile (fun x => x == ' ' || x == '\t')) == target.data

/-- `_parse_preprocess_call`. -/
def parse_preprocess_call (t : TS) : M Ast := do
  if t.ty != "preproc_call" then .error .assertFail else
  let s := descend t
  let start := s.cur.startLoc
  if s.cur.ty != "preproc_directive" then .error .assertFail else
  let (directive, s) ← consume_raw_content s
  let (directive_arg, s) ← try_consume_preprocess_arg s
  let stop := s.cur.stopLoc
  let code_range : CRange := ⟨theFile, start, stop⟩
  if is_preprocess_directive_eq directive "undef" then
    match directive_arg with
    | none => .error .assertFail
    | some arg => return .undefineDirective code_range arg
  else if is_preprocess_directive_eq directive "error" then
    return .errorDirective code_range directive_arg
  else if is_preprocess_directive_eq directive "pragma" then
    return .pragmaDirective code_range directive_arg
  else if is_preprocess_directive_eq directive "line" then
    match directive_arg with
    | none => .error .assertFail
    | some arg => return .lineDirective code_range arg
  else
    .error (.codeError ("unsupoorted preprocessing directive #" ++ directive)
      (rangeOf s.cur))

/-- `_parse_preprocess_define`. -/
def parse_preprocess_define (t : TS) : M Ast := do
  if t.ty != "preproc_def" then .error .assertFail else
  let start := t.startLoc
  let s := descend t
  let s ← consume_node_with_type "#define" s
  let (ident, s) ← consume_tree_sitter_identifier s
  let stop := s.cur.stopLoc
  let (replacement, _) ← try_consume_preprocess_arg s
  return .defineDirective ⟨theFile, start, stop⟩ ident replacement

/-- `_consume_preprocess_param`. -/
def consume_preprocess_param (s : Sib) : M (String × Sib) :=
  if s.cur.ty == "identifier" then
    consume_tree_sitter_identifier s
  else if s.cur.ty == "..." then
    .ok ("...", adv s)
  else
    .error (.codeError "not a preprocessing param" (rangeOf s.cur))

/-- The `while not self._is_end_of_params()` loop of
`_consume_preprocess_params`. -/
def preprocess_params_loop (fuel : Nat) (acc : List String) (s : Sib) :
    M (List String × Sib) :=
  match fuel with
  | 0 => .error .outOfFuel
  | fuel + 1 =>
    if s.cur.ty == ")" then .ok (acc, s)
    else do
      let s ← consume_node_with_type "," s
      let (p, s) ← consume_preprocess_param s
      preprocess_params_loop fuel (acc ++ [p]) s

/-- `_consume_preprocess_params`.  The final validation re-raises when a
`"..."` parameter is followed by another parameter, i.e. exactly when
`"..."` occurs anywhere but the last position. -/
def consume_preprocess_params (fuel : Nat) (s : Sib) : M (List String × Sib) := do
  if s.cur.ty != "preproc_params" then .error .assertFail else
  let inner := descend s.cur
  let inner ← consume_node_with_type "(" inner
  let (params, _) ←
    if inner.cur.ty == ")" then pure ([], inner)
    else do
      let (first, inner) ← consume_preprocess_param inner
      preprocess_params_loop fuel [first] inner
  if params.dropLast.contains "..." then
    .error (.codeError
      ("... should be the last parameter of " ++ "a function define directive")
      (rangeOf s.cur))
  else
    return (params, adv s)

/-- `_parse_preprocess_function_define`. -/
def parse_preprocess_function_define (fuel : Nat) (t : TS) : M Ast := do
  if t.ty != "preproc_function_def" then .error .assertFail else
  let code_range := rangeOf t
  let s := descend t
  let s ← consume_node_with_type "#define" s
  let (ident, s) ← consume_tree_sitter_identifier s
  let (params, s) ← consume_preprocess_params fuel s
  let (replacement, _) ← try_consume_preprocess_arg s
  return .functionDefineDirective code_range ident params replacement

/-- `_parse_preprocess_include`. -/
def parse_preprocess_include (fuel : Nat) (t : TS) : M Ast := do
  if t.ty != "preproc_include" then .error .assertFail else
  let s := descend t
  let s ← consume_node_with_type "#include" s
  match IncludeTargetType.ofValue? s.cur.ty with
  | none => .error .assertFail
  | some target_type =>
    let code_range := rangeOf s.cur
    if target_type = IncludeTargetType.CallExpression then do
      let (target, _) ← consume_preprocess_call_expression fuel s
      return .includeDirectiveCall code_range target_type target
    else do
      let (target, _) ← consume_raw_content s
      return .includeDirectiveStr code_range target_type target

/-! ## Declaration-specifier predicates and leaf consumers -/

/-- `_is_c_struct_or_union_specifier`. -/
def is_c_struct_or_union_specifier (t : TS) : Bool :=
  t.ty == "struct_specifier" || t.ty == "union_specifier"

/-- `_is_c_enum_specifier`. -/
def is_c_enum_specifier (t : TS) : Bool := t.ty == "enum_specifier"

/-- `_is_tree_sitter_macro_type_specifier`. -/
def is_tree_sitter_macro_type_specifier (t : TS) : Bool :=
  t.ty == "macro_type_specifier"

/-- `_is_tree_sitter_sized_type_specifier`. -/
def is_tree_sitter_sized_type_specifier (t : TS) : Bool :=
  t.ty == "sized_type_specifier"

/-- `_is_c_primitive_type_specifier`. -/
def is_c_primitive_type_specifier (t : TS) : Bool := t.ty == "primitive_type"

/-- `_is_tree_sitter_type_identifier`. -/
def is_tree_sitter_type_identifier (t : TS) : Bool := t.ty == "type_identifier"

/-- `_is_c_type_specifier`. -/
def is_c_type_specifier (t : TS) : Bool :=
  is_c_struct_or_union_specifier t ||
  is_c_enum_specifier t ||
  is_tree_sitter_macro_type_specifier t ||
  is_tree_sitter_sized_type_specifier t ||
  is_c_primitive_type_specifier t ||
  is_tree_sitter_type_identifier t

/-- `_get_first_child`: `self._cursor.node.children[0]`, an `IndexError`
on a childless node. -/
def get_first_child (t : TS) : M TS :=
  match t.children with
  | [] => .error .indexError
  | c :: _ => .ok c

/-- `_is_c_storage_class_specifier`. -/
def is_c_storage_class_specifier (t : TS) : M Bool := do
  if t.ty != "storage_class_specifier" then return false else
  let c ← get_first_child t
  return (c.ty == "extern" || c.ty == "static" || c.ty == "auto" ||
    c.ty == "register" || c.ty == "thread_local" || c.ty == "__thread")

/-- `_consume_c_storage_class_specifier`. -/
def consume_c_storage_class_specifier (s : Sib) : M (Ast × Sib) := do
  let code_range := rangeOf s.cur
  let c ← get_first_child s.cur
  let specifier := c.ty
  let kind : StorageClassSpecifierKind ←
    if specifier == "extern" then pure .Extern
    else if specifier == "static" then pure .Static
    else if specifier == "auto" then pure .Auto
    else if specifier == "register" then pure .Register
    else if specifier == "thread_local" || specifier == "__thread" then
      pure .ThreadLocal
    else .error (.unreachableE none)
  return (.storageClassSpecifier code_range kind, adv s)

/-- `_is_c_type_qualifier`. -/
def is_c_type_qualifier (t : TS) : M Bool := do
  if t.ty != "type_qualifier" then return false else
  let c ← get_first_child t
  return (c.ty == "const" || c.ty == "volatile" || c.ty == "restrict" ||
    c.ty == "__restrict__" || c.ty == "_Atomic" || c.ty == "_Nonnull")

/-- `_consume_c_type_qualifier`. -/
def consume_c_type_qualifier (s : Sib) : M (Ast × Sib) := do
  let code_range := rangeOf s.cur
  let c ← get_first_child s.cur
  let qualifier := c.ty
  let kind : TypeQualifierKind ←
    if qualifier == "const" then pure .Const
    else if qualifier == "volatile" then pure .Volatile
    else if qualifier == "restrict" || qualifier == "__restrict__" then
      pure .Restrict
    else if qualifier == "_Atomic" then pure .Atomic
    else if qualifier == "_Nonnull" then pure .Nonnull
    else .error (.codeError ("unsupported type qualifier " ++ qualifier)
      (rangeOf s.cur))
  return (.typeQualifier code_range kind, adv s)

/-- `_is_c_function_specifier`.  The source descends to the first child
to test it and ascends again; on a childless node the descent fails and
the following `goto_parent` corrupts the cursor — a shape
grammar-produced `storage_class_specifier`/`type_qualifier` nodes never
have, folded to `false` here. -/
def is_c_function_specifier (t : TS) : Bool :=
  if t.ty == "storage_class_specifier" || t.ty == "type_qualifier" then
    match t.children with
    | [] => false
    | c :: _ =>
      c.ty == "inline" || c.ty == "__inline" || c.ty == "__line__" ||
      c.ty == "_Noreturn"
  else false

/-- `_consume_c_function_specifier`. -/
def consume_c_function_specifier (s : Sib) : M (Ast × Sib) := do
  let code_range := rangeOf s.cur
  let inner := descend s.cur
  let kind : FunctionSpecifierKind ←
    if inner.cur.ty == "inline" || inner.cur.ty == "__inline" ||
        inner.cur.ty == "__line__" then
      pure .Inline
    else if inner.cur.ty == "_Noreturn" then pure .Noreturn
    else .error .assertFail
  return (.functionSpecifier code_range kind, adv s)

/-- `_is_c_alignment_specifier`. -/
def is_c_alignment_specifier (t : TS) : Bool := t.ty == "alignas_qualifier"

/-- `_is_c_attribute`. -/
def is_c_attribute (t : TS) : Bool := t.ty == "attribute_specifier"

/-- `_is_c_expression`: `raise NotImplementedError()`. -/
def is_c_expression (_s : Sib) : M Bool := .error .notImplemented

/-- `_consume_c_expression`: `raise NotImplementedError()`. -/
def consume_c_expression (_s : Sib) : M (Ast × Sib) := .error .notImplemented

/-- `_is_c_declaration_specifier`, with Python's left-to-right
short-circuit evaluation of the `or`-chain. -/
def is_c_declaration_specifier (t : TS) : M Bool := do
  if ← is_c_storage_class_specifier t then return true
  else if is_c_type_specifier t then return true
  else if ← is_c_type_qualifier t then return true
  else if is_c_function_specifier t then return true
  else return is_c_alignment_specifier t

/-- `_is_tree_sitter_sized_type_item`. -/
def is_tree_sitter_sized_type_item (t : TS) : Bool :=
  t.ty == "signed" || t.ty == "unsigned" || t.ty == "long" || t.ty == "short"

/-- `_consume_tree_sitter_size_type_item`.  The
`node.PrimitiveTypeSpecifierKind(...)` enum call raises `ValueError`
when the type tag is not a member value. -/
def consume_tree_sitter_size_type_item (s : Sib) : M (Ast × Sib) := do
  let code_range := rangeOf s.cur
  match PrimitiveTypeSpecifierKind.ofValue? s.cur.ty with
  | none => .error .valueError
  | some kind => return (.primitiveTypeSpecifier code_range kind, adv s)

/-- `_consume_c_primitive_type_specifier`.  Each branch guard compares
the raw token string with a `TreeSitterCPrimitivType` enum member via
Python `==` (`pyEq`), not with the member's `.value`. -/
def consume_c_primitive_type_specifier (s : Sib) : M (Ast × Sib) := do
  if !is_c_primitive_type_specifier s.cur then .error .assertFail else
  let code_range := rangeOf s.cur
  let (type_, s) ← consume_raw_content s
  if pyEq (.str type_) (.enumMember .Char) then
    return (.primitiveTypeSpecifier code_range .Char, s)
  else if pyEq (.str type_) (.enumMember .Int) then
    return (.primitiveTypeSpecifier code_range .Int, s)
  else if pyEq (.str type_) (.enumMember .Float) then
    return (.primitiveTypeSpecifier code_range .Float, s)
  else if pyEq (.str type_) (.enumMember .Double) then
    return (.primitiveTypeSpecifier code_range .Double, s)
  else if pyEq (.str type_) (.enumMember .Void) then
    return (.primitiveTypeSpecifier code_range .Void, s)
  else
    return (.typedefName code_range type_, s)

/-- `_consume_c_typedef_name`. -/
def consume_c_typedef_name (s : Sib) : M (Ast × Sib) := do
  if !is_tree_sitter_type_identifier s.cur then .error .assertFail else
  let code_range := rangeOf s.cur
  let (ident, s) ← consume_raw_content s
  return (.typedefName code_range ident, s)

/-- The `while count < at_most and self._is_c_type_qualifier()` loop of
`_consume_c_type_qualifier_list`, by recursion on the remaining budget. -/
def c_type_qualifier_list_loop : Nat → List Ast → Sib → M (List Ast × Sib)
  | 0, acc, s => .ok (acc, s)
  | n + 1, acc, s => do
    if ← is_c_type_qualifier s.cur then
      let (q, s) ← consume_c_type_qualifier s
      c_type_qualifier_list_loop n (acc ++ [q]) s
    else .ok (acc, s)

/-- `_consume_c_type_qualifier_list`. -/
def consume_c_type_qualifier_list (at_most : Nat) (s : Sib) :
    M (List Ast × Sib) :=
  c_type_qualifier_list_loop at_most [] s

/-- The first and last loops of `_consume_tree_sitter_sized_type_specifier`
(`while index < count and self._is_tree_sitter_sized_type_item()`); the
returned `Nat` is the remaining `count - index` budget. -/
def sized_items_loop : Nat → List Ast → Sib → M (List Ast × Sib × Nat)
  | 0, acc, s => .ok (acc, s, 0)
  | n + 1, acc, s =>
    if is_tree_sitter_sized_type_item s.cur then do
      let (x, s) ← consume_tree_sitter_size_type_item s
      sized_items_loop n (acc ++ [x]) s
    else .ok (acc, s, n + 1)

/-- The qualifier loop of `_consume_tree_sitter_sized_type_specifier`. -/
def sized_qualifiers_loop : Nat → List Ast → Sib → M (List Ast × Sib × Nat)
  | 0, acc, s => .ok (acc, s, 0)
  | n + 1, acc, s => do
    if ← is_c_type_qualifier s.cur then
      let (x, s) ← consume_c_type_qualifier s
      sized_qualifiers_loop n (acc ++ [x]) s
    else .ok (acc, s, n + 1)

/-- `_consume_tree_sitter_sized_type_specifier`.  The middle
`type_identifier`/`primitive_type` test is not budget-guarded in the
source either. -/
def consume_tree_sitter_sized_type_specifier (s : Sib) : M (List Ast × Sib) := do
  let count := s.cur.children.length
  let inner := descend s.cur
  let (specifiers, inner, n) ← sized_items_loop count [] inner
  let (specifiers, inner, n) ← sized_qualifiers_loop n specifiers inner
  let (specifiers, inner, n) ←
    if is_tree_sitter_type_identifier inner.cur then do
      let (x, inner) ← consume_c_typedef_name inner
      pure (specifiers ++ [x], inner, n - 1)
    else if is_c_primitive_type_specifier inner.cur then do
      let (x, inner) ← consume_c_primitive_type_specifier inner
      pure (specifiers ++ [x], inner, n - 1)
    else pure (specifiers, inner, n)
  let (specifiers, _, _) ← sized_items_loop n specifiers inner
  return (specifiers, adv s)

/-! ## Declarator and struct/enum predicates -/

/-- `_is_tree_sitter_declarator` and its component predicates. -/
def is_tree_sitter_declarator (t : TS) : Bool :=
  t.ty == "init_declarator" || t.ty == "attributed_declarator" ||
  t.ty == "pointer_declarator" || t.ty == "function_declarator" ||
  t.ty == "array_declarator" || t.ty == "parenthesized_declarator" ||
  t.ty == "identifier"

/-- `_is_c_abstract_declarator`: membership in
`TreeSitterAbstractDeclaratorType`, whose `PointerDeclarator` value is
the source's misspelling `abstract_pointer_declarat`. -/
def is_c_abstract_declarator (t : TS) : Bool :=
  t.ty == "abstract_pointer_declarat" ||
  t.ty == "abstract_function_declarator" ||
  t.ty == "abstract_array_declarator" ||
  t.ty == "abstract_parenthesized_declarator"

/-- `_is_c_declaration`. -/
def is_c_declaration (t : TS) : Bool := t.ty == "declaration"

/-- `_is_c_parameter_declaration`. -/
def is_c_parameter_declaration (t : TS) : Bool :=
  t.ty == "parameter_declaration"

/-- `_is_tree_sitter_field_declaration_list`. -/
def is_tree_sitter_field_declaration_list (t : TS) : Bool :=
  t.ty == "field_declaration_list"

/-- `_is_c_struct_field_declaration`. -/
def is_c_struct_field_declaration (t : TS) : Bool :=
  t.ty == "field_declaration"

/-- `_is_c_bitfield_clause`. -/
def is_c_bitfield_clause (t : TS) : Bool := t.ty == "bitfield_clause"

/-- `_is_preproc_if_field_declaration_list`. -/
def is_preproc_if_field_declaration_list (t : TS) : Bool :=
  t.ty == "preproc_if_in_field_declaration_list"

/-- `_is_preproc_ifdef_field_declaration_list`. -/
def is_preproc_ifdef_field_declaration_list (t : TS) : Bool :=
  t.ty == "preproc_ifdef_in_field_declaration_list"

/-- `_is_preproc_elif_field_declaration_list`. -/
def is_preproc_elif_field_declaration_list (t : TS) : Bool :=
  t.ty == "preproc_elif_in_field_declaration_list"

/-- `_is_preproc_elifdef_field_declaration_list`. -/
def is_preproc_elifdef_field_declaration_list (t : TS) : Bool :=
  t.ty == "preproc_elifdef_in_field_declaration_list"

/-- `_is_preproc_else_field_declaration_list`. -/
def is_preproc_else_field_declaration_list (t : TS) : Bool :=
  t.ty == "preproc_else_in_field_declaration_list"

/-- `_is_preprocess_define`. -/
def is_preprocess_define (t : TS) : Bool := t.ty == "preproc_def"

/-- `_is_preprocess_function_define`. -/
def is_preprocess_function_define (t : TS) : Bool :=
  t.ty == "preproc_function_def"

/-- `_is_preprocess_call`. -/
def is_preprocess_call (t : TS) : Bool := t.ty == "preproc_call"

/-- `_is_tree_sitter_field_declaration`. -/
def is_tree_sitter_field_declaration (t : TS) : Bool :=
  is_c_struct_field_declaration t ||
  is_preprocess_define t ||
  is_preprocess_function_define t ||
  is_preprocess_call t ||
  is_preproc_if_field_declaration_list t ||
  is_preproc_ifdef_field_declaration_list t

/-- `_is_tree_sitter_enumerator_list`. -/
def is_tree_sitter_enumerator_list (t : TS) : Bool := t.ty == "enumerator_list"

/-- `_is_tree_sitter_enumerator`. -/
def is_tree_sitter_enumerator (t : TS) : Bool := t.ty == "enumerator"

/-- `_is_tree_sitter_preproc_if_enumerator` and the `_no_comma` variant. -/
def is_tree_sitter_preproc_if_enumerator (t : TS) : Bool :=
  t.ty == "preproc_if_in_enumerator_list"

def is_tree_sitter_preproc_if_enumerator_no_comma (t : TS) : Bool :=
  t.ty == "preproc_if_in_enumerator_list_no_comma"

def is_tree_sitter_preproc_ifdef_enumerator (t : TS) : Bool :=
  t.ty == "preproc_ifdef_in_enumerator_list"

def is_tree_sitter_preproc_ifdef_enumerator_no_comma (t : TS) : Bool :=
  t.ty == "preproc_ifdef_in_enumerator_list_no_comma"

/-- `_is_tree_sitter_preproc_else_enumerator`. -/
def is_tree_sitter_preproc_else_enumerator (t : TS) : Bool :=
  t.ty == "preproc_else_in_enumerator_list" ||
  t.ty == "preproc_else_in_enumerator_list_no_comma"

/-- `_is_tree_sitter_preproc_elif_enumerator`. -/
def is_tree_sitter_preproc_elif_enumerator (t : TS) : Bool :=
  t.ty == "preproc_elif_in_enumerator_list" ||
  t.ty == "preproc_elif_in_enumerator_list_no_comma"

/-- `_is_tree_sitter_preproc_elifdef_enumerator`. -/
def is_tree_sitter_preproc_elifdef_enumerator (t : TS) : Bool :=
  t.ty == "preproc_elifdef_in_enumerator_list" ||
  t.ty == "preproc_elifdef_in_enumerator_list_no_comma"

/-! ## Non-recursive consumers of the declaration machinery -/

/-- `_consume_c_bitfield_caluse` (sic).  `_consume_c_expression` raises
`NotImplementedError`, so this never returns normally. -/
def consume_c_bitfield_caluse (s : Sib) : M (Ast × Sib) := do
  let inner := descend s.cur
  let inner ← consume_node_with_type ":" inner
  let (exp, _) ← consume_c_expression inner
  return (exp, adv s)

/-- `_consume_tree_sitter_enumerator`.  An enumerator with a value would
reach `_consume_c_expression` and raise `NotImplementedError`. -/
def consume_tree_sitter_enumerator (s : Sib) : M (Ast × Sib) := do
  let code_range := rangeOf s.cur
  let inner := descend s.cur
  let (identifier, inner) ← consume_c_identifier inner
  let expression ←
    if inner.cur.ty == "=" then do
      let (e, _) ← consume_c_expression inner
      pure (some e)
    else pure none
  return (.enumerator code_range identifier expression, adv s)

/-- The counted `for _ in range(count)` loop of
`_consume_tree_sitter_preproc_else_enumerator`. -/
def preproc_else_enumerator_loop : Nat → List Ast → Sib → M (List Ast × Sib)
  | 0, acc, s => .ok (acc, s)
  | n + 1, acc, s =>
    if is_tree_sitter_enumerator s.cur then do
      let (e, s) ← consume_tree_sitter_enumerator s
      preproc_else_enumerator_loop n (acc ++ [e]) s
    else if s.cur.ty == "," then do
      let s ← consume_node_with_type "," s
      preproc_else_enumerator_loop n acc s
    else
      -- `assert self._is_comma()`
      .error .assertFail

/-- `_consume_tree_sitter_preproc_else_enumerator`. -/
def consume_tree_sitter_preproc_else_enumerator (s : Sib) : M (Ast × Sib) := do
  let code_range := rangeOf s.cur
  let inner := descend s.cur
  let inner ← consume_node_with_type "#else" inner
  -- `count = self._get_sibling_count() - 1`
  let count := s.cur.children.length - 1
  let (enumerators, _) ← preproc_else_enumerator_loop count [] inner
  return (.macroEnumeratorElseGroup code_range
    (if enumerators.isEmpty then none else some enumerators), adv s)

/-- `_consume_tree_sitter_preproc_call_enumerator`. -/
def consume_tree_sitter_preproc_call_enumerator (s : Sib) : M (Ast × Sib) := do
  let directive ← parse_preprocess_call s.cur
  return (.macroDirectiveEnumerator directive.range directive, adv s)

/-- The `while not self._is_right_parenthesis()` loop of
`_consume_c_argument_list`; its body starts with `_consume_c_expression`,
which raises `NotImplementedError`, after the comma. -/
def c_argument_loop (fuel : Nat) (acc : List Ast) (s : Sib) :
    M (List Ast × Sib) :=
  match fuel with
  | 0 => .error .outOfFuel
  | fuel + 1 =>
    if s.cur.ty == ")" then .ok (acc, s)
    else do
      let s ← consume_node_with_type "," s
      let (e, s) ← consume_c_expression s
      c_argument_loop fuel (acc ++ [e]) s

/-- `_consume_c_argument_list`. -/
def consume_c_argument_list (fuel : Nat) (s : Sib) : M (List Ast × Sib) := do
  if s.cur.ty != "argument_list" then .error .assertFail else
  let inner := descend s.cur
  let inner ← consume_node_with_type "(" inner
  let (list_, inner) ←
    if inner.cur.ty != ")" then do
      let (e, inner) ← consume_c_expression inner
      pure ([e], inner)
    else pure ([], inner)
  let (list_, inner) ← c_argument_loop fuel list_ inner
  let _ ← consume_node_with_type ")" inner
  return (list_, adv s)

/-- `_consume_c_attribute`. -/
def consume_c_attribute (fuel : Nat) (s : Sib) : M (Ast × Sib) := do
  let code_range := rangeOf s.cur
  let inner := descend s.cur
  let inner ← consume_node_with_type "__attribute__" inner
  let inner ← consume_node_with_type "(" inner
  let (arguments, inner) ← consume_c_argument_list fuel inner
  let _ ← consume_node_with_type ")" inner
  return (.attributeNode code_range arguments, adv s)

/-- The `while count < at_most and self._is_c_attribute()` loop of
`_try_consume_c_attribute_list`. -/
def c_attribute_list_loop (fuel : Nat) :
    Nat → List Ast → Sib → M (List Ast × Sib)
  | 0, acc, s => .ok (acc, s)
  | n + 1, acc, s =>
    if is_c_attribute s.cur then do
      let (a, s) ← consume_c_attribute fuel s
      c_attribute_list_loop fuel n (acc ++ [a]) s
    else .ok (acc, s)

/-- `_try_consume_c_attribute_list`. -/
def try_consume_c_attribute_list (fuel : Nat) (at_most : Nat) (s : Sib) :
    M (Option (List Ast) × Sib) := do
  let (list_, s) ← c_attribute_list_loop fuel at_most [] s
  return (if list_.isEmpty then none else some list_, s)

/-- `_consume_identifier_as_declarator`. -/
def consume_identifier_as_declarator (s : Sib) : M (Ast × Sib) := do
  let (identifier, s) ← consume_c_identifier s
  return (.identifierDeclarator identifier.range identifier, s)

/-- `_consume_tree_sitter_attributed_declarator`: always a `CodeError`. -/
def consume_tree_sitter_attributed_declarator (s : Sib) : M (Ast × Sib) :=
  .error (.codeError "declarator with attribute is not supported" (rangeOf s.cur))

/-! ## The recursive core of the lowering engine

All functions below are mutually recursive through the grammar's cycles
(type specifier → struct body → field declaration → declarator →
parameter list → declaration specifiers → type specifier, …), so each
takes a fuel parameter; `outOfFuel` stands for a diverging source loop. -/

set_option maxHeartbeats 2000000 in
mutual

/-- `_consume_c_type_specifier`.  The `sized_type_specifier` branch is
commented out in the source; sized specifiers are handled by
`_consume_c_declaration_specifiers` instead. -/
def consume_c_type_specifier (fuel : Nat) (s : Sib) : M (Ast × Sib) :=
  match fuel with
  | 0 => .error .outOfFuel
  | fuel + 1 =>
    if is_c_struct_or_union_specifier s.cur then
      consume_c_struct_or_union_specifier fuel s
    else if is_c_enum_specifier s.cur then
      consume_c_enum_specifier fuel s
    else if is_tree_sitter_macro_type_specifier s.cur then
      consume_tree_sitter_macro_type_specifier fuel s
    else if is_c_primitive_type_specifier s.cur then
      consume_c_primitive_type_specifier s
    else if is_tree_sitter_type_identifier s.cur then
      consume_c_typedef_name s
    else
      .error (.unreachableE none)

  termination_by structural fuel

/-- `_consume_c_struct_or_union_specifier`.  After `goto_first_child`
the current node is the `struct`/`union` keyword token, so the
`union_specifier` test on it is never true and `is_struct` stays `True`. -/
def consume_c_struct_or_union_specifier (fuel : Nat) (s : Sib) : M (Ast × Sib) :=
  match fuel with
  | 0 => .error .outOfFuel
  | fuel + 1 => do
    let code_range := rangeOf s.cur
    let inner := descend s.cur
    let is_struct := true
    let (is_struct, inner) ←
      if inner.cur.ty == "union_specifier" then do
        let inner ← consume_node_with_type "union" inner
        pure (false, inner)
      else do
        let inner ← consume_node_with_type "struct" inner
        pure (is_struct, inner)
    if inner.cur.ty == "attribute_specifier" ||
        inner.cur.ty == "ms_declspec_modifier" then
      .error (.codeError "unsupported tree-sitter-c node" (rangeOf inner.cur))
    else
    let (id_, inner) ←
      if is_tree_sitter_type_identifier inner.cur then do
        let (i, inner) ← consume_tree_sitter_type_identifier_as_c_identifier inner
        pure (some i, inner)
      else pure (none, inner)
    let (declarations, _) ←
      if is_tree_sitter_field_declaration_list inner.cur then do
        let (d, inner) ← consume_tree_sitter_field_declaration_list fuel inner
        pure (some d, inner)
      else pure (none, inner)
    if id_.isNone && declarations.isNone then
      .error (.codeError
        ("both identifier and declaration list of " ++
          (if is_struct then "struct" else "union") ++ " are empty")
        (rangeOf inner.cur))
    else
      return (.structOrUnionSpecifier code_range is_struct id_ declarations, adv s)

  termination_by structural fuel

/-- The `while not self._is_right_brace()` loop of
`_consume_tree_sitter_field_declaration_list`. -/
def field_declaration_list_loop (fuel : Nat) (acc : List Ast) (s : Sib) :
    M (List Ast × Sib) :=
  match fuel with
  | 0 => .error .outOfFuel
  | fuel + 1 =>
    if s.cur.ty == "\x7d" then .ok (acc, s)
    else do
      let (d, s) ← consume_tree_sitter_field_declaration fuel s
      field_declaration_list_loop fuel (acc ++ [d]) s

  termination_by structural fuel

/-- `_consume_tree_sitter_field_declaration_list`. -/
def consume_tree_sitter_field_declaration_list (fuel : Nat) (s : Sib) :
    M (List Ast × Sib) :=
  match fuel with
  | 0 => .error .outOfFuel
  | fuel + 1 => do
    let inner := descend s.cur
    let inner ← consume_node_with_type "\x7b" inner
    let (declarations, inner) ← field_declaration_list_loop fuel [] inner
    let _ ← consume_node_with_type "\x7d" inner
    return (declarations, adv s)

  termination_by structural fuel

/-- `_consume_tree_sitter_field_declaration`. -/
def consume_tree_sitter_field_declaration (fuel : Nat) (s : Sib) :
    M (Ast × Sib) :=
  match fuel with
  | 0 => .error .outOfFuel
  | fuel + 1 =>
    if is_c_struct_field_declaration s.cur then
      consume_c_struct_field_declaration fuel s
    else if is_preprocess_define s.cur then do
      let define ← parse_preprocess_define s.cur
      return (.macroDefStructDeclaration define.range define, adv s)
    else if is_preprocess_function_define s.cur then do
      let function_define ← parse_preprocess_function_define fuel s.cur
      return (.macroFunctionDefStructDeclaration function_define.range
        function_define, adv s)
    else if is_preprocess_call s.cur then do
      let directive ← parse_preprocess_call s.cur
      return (.macroDirectiveStructDeclaration directive.range directive, adv s)
    else if is_preproc_if_field_declaration_list s.cur ||
        is_preproc_ifdef_field_declaration_list s.cur then
      consume_preproc_condtional_field_declaration_list fuel s
    else
      .error (.codeError "unsupported field declaration of struct or union"
        (rangeOf s.cur))

  termination_by structural fuel

/-- The `while self._is_comma()` loop of
`_consume_c_struct_field_declaration`. -/
def struct_declarator_comma_loop (fuel : Nat) (acc : List Ast) (s : Sib) :
    M (List Ast × Sib) :=
  match fuel with
  | 0 => .error .outOfFuel
  | fuel + 1 =>
    if s.cur.ty == "," then do
      let s ← consume_node_with_type "," s
      let (d, s) ← consume_c_struct_declarator fuel s
      struct_declarator_comma_loop fuel (acc ++ [d]) s
    else .ok (acc, s)

  termination_by structural fuel

/-- `_consume_c_struct_field_declaration`. -/
def consume_c_struct_field_declaration (fuel : Nat) (s : Sib) : M (Ast × Sib) :=
  match fuel with
  | 0 => .error .outOfFuel
  | fuel + 1 => do
    let code_range := rangeOf s.cur
    let inner := descend s.cur
    let sibling_count := s.cur.children.length
    let (type_specs, inner) ←
      consume_c_type_specifier_qualifier_list fuel sibling_count inner
    let (declarators, inner) ←
      if is_tree_sitter_declarator inner.cur then do
        let (d, inner) ← consume_c_struct_declarator fuel inner
        pure ([d], inner)
      else pure ([], inner)
    let (declarators, inner) ← struct_declarator_comma_loop fuel declarators inner
    let (attr, inner) ←
      if is_c_attribute inner.cur then do
        let (a, inner) ← consume_c_attribute fuel inner
        pure (some a, inner)
      else pure (none, inner)
    let _ ← consume_node_with_type ";" inner
    return (.structField code_range type_specs declarators attr, adv s)

  termination_by structural fuel

/-- `_consume_c_struct_declarator`. -/
def consume_c_struct_declarator (fuel : Nat) (s : Sib) : M (Ast × Sib) :=
  match fuel with
  | 0 => .error .outOfFuel
  | fuel + 1 => do
    let (declarator, s) ← consume_tree_sitter_declarator fuel s
    let (bit, s) ←
      if is_c_bitfield_clause s.cur then do
        let (b, s) ← consume_c_bitfield_caluse s
        pure (some b, s)
      else pure (none, s)
    let code_range : CRange :=
      ⟨theFile, declarator.range.start,
        match bit with
        | some b => b.range.stop
        | none => declarator.range.stop⟩
    return (.structDeclarator code_range declarator bit, s)


/-- The body loop of `_consume_preproc_field_declaratin_if_group` and
`_consume_preproc_field_declaratin_ifdef_group`: the guard is the
generic `_is_tree_sitter_field_declaration`, but the body always calls
`_consume_c_struct_field_declaration`. -/
def struct_field_body_loop (fuel : Nat) (acc : List Ast) (s : Sib) :
    M (List Ast × Sib) :=
  match fuel with
  | 0 => .error .outOfFuel
  | fuel + 1 =>
    if is_tree_sitter_field_declaration s.cur then do
      let (d, s) ← consume_c_struct_field_declaration fuel s
      struct_field_body_loop fuel (acc ++ [d]) s
    else .ok (acc, s)

  termination_by structural fuel

/-- `_consume_preproc_field_declaratin_if_group` (sic).  The
`declarations` list is passed to the node constructor as-is — an empty
guarded region yields an empty list, not `None`. -/
def consume_preproc_field_declaratin_if_group (fuel : Nat) (s : Sib) :
    M (Ast × Sib) :=
  match fuel with
  | 0 => .error .outOfFuel
  | fuel + 1 => do
    let code_start := s.cur.startLoc
    let s ← consume_node_with_type "#if" s
    let (condition, s) ← consume_preprocess_expression fuel s
    let s ← consume_node_with_type "\n" s
    let (declarations, s) ← struct_field_body_loop fuel [] s
    let code_end :=
      match declarations.getLast? with
      | some d => d.range.stop
      | none => condition.range.stop
    return (.macroStructDeclarationIfGroup ⟨theFile, code_start, code_end⟩
      (some declarations) condition, s)

  termination_by structural fuel

/-- `_consume_preproc_field_declaratin_ifdef_group` (sic); like the
`#if` group, it passes the raw `declarations` list to the constructor. -/
def consume_preproc_field_declaratin_ifdef_group (fuel : Nat) (s : Sib) :
    M (Ast × Sib) :=
  match fuel with
  | 0 => .error .outOfFuel
  | fuel + 1 => do
    let code_start := s.cur.startLoc
    let is_ifndef := s.cur.ty == "#ifndef"
    let s := adv s
    let (identifier, s) ← consume_c_identifier s
    let (declarations, s) ← struct_field_body_loop fuel [] s
    let code_end :=
      match declarations.getLast? with
      | some d => d.range.stop
      | none => identifier.range.stop
    return (.macroStructDeclarationIfdefGroup ⟨theFile, code_start, code_end⟩
      (some declarations) identifier is_ifndef, s)

  termination_by structural fuel

/-- The body loop of the `#elif`/`#else` struct-field groups, which use
the generic `_consume_tree_sitter_field_declaration`. -/
def generic_field_body_loop (fuel : Nat) (acc : List Ast) (s : Sib) :
    M (List Ast × Sib) :=
  match fuel with
  | 0 => .error .outOfFuel
  | fuel + 1 =>
    if is_tree_sitter_field_declaration s.cur then do
      let (d, s) ← consume_tree_sitter_field_declaration fuel s
      generic_field_body_loop fuel (acc ++ [d]) s
    else .ok (acc, s)

  termination_by structural fuel

/-- `_consume_preproc_elif_field_declaration_list`; this group does
normalize an empty body to `None`. -/
def consume_preproc_elif_field_declaration_list (fuel : Nat) (s : Sib) :
    M (Ast × Sib) :=
  match fuel with
  | 0 => .error .outOfFuel
  | fuel + 1 => do
    let code_range := rangeOf s.cur
    let inner := descend s.cur
    let inner ← consume_node_with_type "#elif" inner
    let (condition, inner) ← consume_preprocess_expression fuel inner
    let inner ← consume_node_with_type "\n" inner
    let (declarations, _) ← generic_field_body_loop fuel [] inner
    return (.macroStructDeclarationElifGroup code_range
      (if declarations.isEmpty then none else some declarations) condition,
      adv s)

  termination_by structural fuel

/-- `_consume_preproc_else_field_declaration_list`; also normalizes an
empty body to `None`. -/
def consume_preproc_else_field_declaration_list (fuel : Nat) (s : Sib) :
    M (Ast × Sib) :=
  match fuel with
  | 0 => .error .outOfFuel
  | fuel + 1 => do
    let code_range := rangeOf s.cur
    let inner := descend s.cur
    let inner ← consume_node_with_type "#else" inner
    let (declarations, _) ← generic_field_body_loop fuel [] inner
    return (.macroStructDeclarationElseGroup code_range
      (if declarations.isEmpty then none else some declarations), adv s)

  termination_by structural fuel

/-- The `while (elif or elifdef)` loop of
`_consume_preproc_condtional_field_declaration_list`; `#elifdef` and
`#elifndef` groups raise a `CodeError`. -/
def elif_field_groups_loop (fuel : Nat) (acc : List Ast) (s : Sib) :
    M (List Ast × Sib) :=
  match fuel with
  | 0 => .error .outOfFuel
  | fuel + 1 =>
    if is_preproc_elif_field_declaration_list s.cur ||
        is_preproc_elifdef_field_declaration_list s.cur then
      if is_preproc_elifdef_field_declaration_list s.cur then
        .error (.codeError "#elifdef or #elifndef is not supported"
          (rangeOf s.cur))
      else do
        let (g, s) ← consume_preproc_elif_field_declaration_list fuel s
        elif_field_groups_loop fuel (acc ++ [g]) s
    else .ok (acc, s)

  termination_by structural fuel

/-- `_consume_preproc_condtional_field_declaration_list` (sic). -/
def consume_preproc_condtional_field_declaration_list (fuel : Nat) (s : Sib) :
    M (Ast × Sib) :=
  match fuel with
  | 0 => .error .outOfFuel
  | fuel + 1 => do
    let is_ifdef := is_preproc_ifdef_field_declaration_list s.cur
    let inner := descend s.cur
    let (if_group, inner) ←
      if is_ifdef then consume_preproc_field_declaratin_ifdef_group fuel inner
      else consume_preproc_field_declaratin_if_group fuel inner
    let (elif_groups, inner) ← elif_field_groups_loop fuel [] inner
    let (else_group, inner) ←
      if is_preproc_else_field_declaration_list inner.cur then do
        let (g, inner) ← consume_preproc_else_field_declaration_list fuel inner
        pure (some g, inner)
      else pure (none, inner)
    let code_end := inner.cur.stopLoc
    let _ ← consume_node_with_type "#endif" inner
    return (.macroConditionalStructDeclaration
      ⟨theFile, if_group.range.start, code_end⟩ if_group
      (if elif_groups.isEmpty then none else some elif_groups) else_group,
      adv s)

  termination_by structural fuel

/-- `_consume_c_enum_specifier`. -/
def consume_c_enum_specifier (fuel : Nat) (s : Sib) : M (Ast × Sib) :=
  match fuel with
  | 0 => .error .outOfFuel
  | fuel + 1 => do
    let code_range := rangeOf s.cur
    let inner := descend s.cur
    let inner ← consume_node_with_type "enum" inner
    let (id_, inner) ←
      if is_tree_sitter_type_identifier inner.cur then do
        let (i, inner) ← consume_tree_sitter_type_identifier_as_c_identifier inner
        if inner.cur.ty == ":" then
          .error (.codeError "enum of fixed underlying type is not supported"
            (rangeOf inner.cur))
        else
          pure (some i, inner)
      else pure (none, inner)
    let (enumerator_list, _) ←
      if is_tree_sitter_enumerator_list inner.cur then do
        let (l, inner) ← consume_tree_sitter_enumerator_list fuel inner
        pure (some l, inner)
      else pure (none, inner)
    if id_.isNone && enumerator_list.isNone then
      .error (.codeError "missing both enum name and enumerator list"
        (rangeOf inner.cur))
    else
      return (.enumSpecifier code_range id_ enumerator_list, adv s)


/-- The `while not self._is_right_brace()` loop of
`_consume_tree_sitter_enumerator_list`. -/
def enumerator_list_loop (fuel : Nat) (acc : List Ast) (s : Sib) :
    M (List Ast × Sib) :=
  match fuel with
  | 0 => .error .outOfFuel
  | fuel + 1 =>
    if s.cur.ty == "\x7d" then .ok (acc, s)
    else if is_tree_sitter_enumerator s.cur then do
      let (e, s) ← consume_tree_sitter_enumerator s
      enumerator_list_loop fuel (acc ++ [e]) s
    else if is_tree_sitter_preproc_if_enumerator s.cur ||
        is_tree_sitter_preproc_if_enumerator_no_comma s.cur then do
      let (e, s) ← consume_tree_sitter_preproc_if_enumerator fuel false s
      enumerator_list_loop fuel (acc ++ [e]) s
    else if is_tree_sitter_preproc_ifdef_enumerator s.cur ||
        is_tree_sitter_preproc_ifdef_enumerator_no_comma s.cur then do
      let (e, s) ← consume_tree_sitter_preproc_if_enumerator fuel true s
      enumerator_list_loop fuel (acc ++ [e]) s
    else if is_preprocess_call s.cur then do
      let (e, s) ← consume_tree_sitter_preproc_call_enumerator s
      enumerator_list_loop fuel (acc ++ [e]) s
    else if s.cur.ty == "," then do
      -- `assert self._is_comma()`
      let s ← consume_node_with_type "," s
      enumerator_list_loop fuel acc s
    else .error .assertFail

  termination_by structural fuel

/-- `_consume_tree_sitter_enumerator_list`. -/
def consume_tree_sitter_enumerator_list (fuel : Nat) (s : Sib) :
    M (List Ast × Sib) :=
  match fuel with
  | 0 => .error .outOfFuel
  | fuel + 1 => do
    if !is_tree_sitter_enumerator_list s.cur then .error .assertFail else
    let inner := descend s.cur
    let inner ← consume_node_with_type "\x7b" inner
    let (list_, inner) ← enumerator_list_loop fuel [] inner
    let _ ← consume_node_with_type "\x7d" inner
    return (list_, adv s)


/-- The `while self._is_tree_sitter_enumerator()` loop (with optional
commas) shared by the `#if`/`#ifdef` and `#elif` enumerator groups. -/
def enumerator_comma_loop (fuel : Nat) (acc : List Ast) (s : Sib) :
    M (List Ast × Sib) :=
  match fuel with
  | 0 => .error .outOfFuel
  | fuel + 1 =>
    if is_tree_sitter_enumerator s.cur then do
      let (e, s) ← consume_tree_sitter_enumerator s
      let s ← if s.cur.ty == "," then consume_node_with_type "," s else pure s
      enumerator_comma_loop fuel (acc ++ [e]) s
    else .ok (acc, s)

  termination_by structural fuel

/-- The `while (elif or elifdef)` loop of
`_consume_tree_sitter_preproc_if_enumerator`. -/
def elif_enumerator_groups_loop (fuel : Nat) (acc : List Ast) (s : Sib) :
    M (List Ast × Sib) :=
  match fuel with
  | 0 => .error .outOfFuel
  | fuel + 1 =>
    if is_tree_sitter_preproc_elif_enumerator s.cur ||
        is_tree_sitter_preproc_elifdef_enumerator s.cur then
      if is_tree_sitter_preproc_elifdef_enumerator s.cur then
        .error (.codeError "#elifdef and #elifndef is not supported"
          (rangeOf s.cur))
      else do
        let (g, s) ← consume_tree_sitter_preproc_elif_enumerator fuel s
        elif_enumerator_groups_loop fuel (acc ++ [g]) s
    else .ok (acc, s)

  termination_by structural fuel

/-- `_consume_tree_sitter_preproc_if_enumerator`.  Note the
`_consume_new_line()` call is unconditional, although only the `#if`
variants have a newline token in the grammar. -/
def consume_tree_sitter_preproc_if_enumerator (fuel : Nat) (is_ifdef : Bool)
    (s : Sib) : M (Ast × Sib) :=
  match fuel with
  | 0 => .error .outOfFuel
  | fuel + 1 => do
    let code_range := rangeOf s.cur
    let inner := descend s.cur
    let if_code_start := inner.cur.startLoc
    let is_ifndef := false
    let (is_ifndef, if_condition_or_id, inner) ←
      if is_ifdef then do
        let is_ifndef := inner.cur.ty == "#ifndef"
        let inner := adv inner
        let (i, inner) ← consume_c_identifier inner
        pure (is_ifndef, i, inner)
      else do
        let inner ← consume_node_with_type "#if" inner
        let (c, inner) ← consume_preprocess_expression fuel inner
        pure (is_ifndef, c, inner)
    let inner ← consume_node_with_type "\n" inner
    let (if_enumerators, inner) ← enumerator_comma_loop fuel [] inner
    let if_code_end :=
      match if_enumerators.getLast? with
      | some e => e.range.stop
      | none => if_condition_or_id.range.stop
    let if_code_range : CRange := ⟨theFile, if_code_start, if_code_end⟩
    let if_group :=
      if is_ifdef then
        Ast.macroEnumeratorIfdefGroup if_code_range
          (if if_enumerators.isEmpty then none else some if_enumerators)
          if_condition_or_id is_ifndef
      else
        Ast.macroEnumeratorIfGroup if_code_range
          (if if_enumerators.isEmpty then none else some if_enumerators)
          if_condition_or_id
    let (elif_groups, inner) ← elif_enumerator_groups_loop fuel [] inner
    let (else_group, inner) ←
      if is_tree_sitter_preproc_else_enumerator inner.cur then do
        let (g, inner) ← consume_tree_sitter_preproc_else_enumerator inner
        pure (some g, inner)
      else pure (none, inner)
    let _ ← consume_node_with_type "#endif" inner
    return (.macroEnumeratorList code_range if_group
      (if elif_groups.isEmpty then none else some elif_groups) else_group,
      adv s)


/-- `_consume_tree_sitter_preproc_elif_enumerator`. -/
def consume_tree_sitter_preproc_elif_enumerator (fuel : Nat) (s : Sib) :
    M (Ast × Sib) :=
  match fuel with
  | 0 => .error .outOfFuel
  | fuel + 1 => do
    let code_range := rangeOf s.cur
    let inner := descend s.cur
    let inner ← consume_node_with_type "#elif" inner
    let (condition, inner) ← consume_preprocess_expression fuel inner
    let inner ← consume_node_with_type "\n" inner
    let (enumerators, _) ← enumerator_comma_loop fuel [] inner
    return (.macroEnumeratorElifGroup code_range
      (if enumerators.isEmpty then none else some enumerators) condition,
      adv s)


/-- `_consume_tree_sitter_macro_type_specifier`. -/
def consume_tree_sitter_macro_type_specifier (fuel : Nat) (s : Sib) :
    M (Ast × Sib) :=
  match fuel with
  | 0 => .error .outOfFuel
  | fuel + 1 => do
    let code_range := rangeOf s.cur
    let inner := descend s.cur
    let (identifier, inner) ← consume_c_identifier inner
    let inner ← consume_node_with_type "(" inner
    let (type_name, inner) ← consume_c_type_name fuel inner
    let _ ← consume_node_with_type ")" inner
    return (.macroTypeSpecifier code_range identifier type_name, adv s)

  termination_by structural fuel

/-- `_consume_c_type_name`. -/
def consume_c_type_name (fuel : Nat) (s : Sib) : M (Ast × Sib) :=
  match fuel with
  | 0 => .error .outOfFuel
  | fuel + 1 => do
    let code_range := rangeOf s.cur
    let child_count := s.cur.children.length
    let inner := descend s.cur
    let (list_, inner) ←
      consume_c_type_specifier_qualifier_list fuel child_count inner
    let (declarator, _) ← try_consume_c_abstract_declarator fuel inner
    return (.typeName code_range list_ declarator, adv s)

  termination_by structural fuel

/-- The `while count < at_most` loop of
`_consume_c_type_specifier_qualifier_list`. -/
def consume_c_type_specifier_qualifier_list (fuel : Nat) (at_most : Nat)
    (s : Sib) : M (List Ast × Sib) :=
  match fuel with
  | 0 => .error .outOfFuel
  | fuel + 1 => type_specifier_qualifier_loop fuel at_most 0 [] s

def type_specifier_qualifier_loop (fuel : Nat) (at_most count : Nat)
    (acc : List Ast) (s : Sib) : M (List Ast × Sib) :=
  match fuel with
  | 0 => .error .outOfFuel
  | fuel + 1 =>
    if count < at_most then
      if is_c_type_specifier s.cur then do
        let (x, s) ← consume_c_type_specifier fuel s
        type_specifier_qualifier_loop fuel at_most (count + 1) (acc ++ [x]) s
      else do
        if ← is_c_type_qualifier s.cur then do
          let (x, s) ← consume_c_type_qualifier s
          type_specifier_qualifier_loop fuel at_most (count + 1) (acc ++ [x]) s
        else .ok (acc, s)
    else .ok (acc, s)

  termination_by structural fuel

/-- `_consume_c_alignment_specifier`.  `_assert_current_node_type_in`
does not advance the cursor, so the following `(` consume still sees the
`alignas`/`_Alignas` keyword and raises a `CodeError`. -/
def consume_c_alignment_specifier (fuel : Nat) (s : Sib) : M (Ast × Sib) :=
  match fuel with
  | 0 => .error .outOfFuel
  | fuel + 1 => do
    let code_range := rangeOf s.cur
    let inner := descend s.cur
    if !(inner.cur.ty == "alignas" || inner.cur.ty == "_Alignas") then
      .error .assertFail
    else
    let inner ← consume_node_with_type "(" inner
    let (align_specifier, inner) ←
      if ← is_c_expression inner then do
        let (e, inner) ← consume_c_expression inner
        pure (Ast.alignmentConstExpressionSpecifier code_range e, inner)
      else do
        let (tn, inner) ← consume_c_type_name fuel inner
        pure (Ast.alignmentTypeSpecifier code_range tn, inner)
    let _ ← consume_node_with_type ")" inner
    return (align_specifier, adv s)

  termination_by structural fuel

/-- `_consume_c_declaration_specifier`. -/
def consume_c_declaration_specifier (fuel : Nat) (s : Sib) : M (Ast × Sib) :=
  match fuel with
  | 0 => .error .outOfFuel
  | fuel + 1 => do
    if ← is_c_storage_class_specifier s.cur then
      consume_c_storage_class_specifier s
    else if is_c_type_specifier s.cur then
      consume_c_type_specifier fuel s
    else if ← is_c_type_qualifier s.cur then
      consume_c_type_qualifier s
    else if is_c_function_specifier s.cur then
      consume_c_function_specifier s
    else if is_c_alignment_specifier s.cur then
      consume_c_alignment_specifier fuel s
    else
      .error (.unreachableE none)

  termination_by structural fuel

/-- `_consume_c_declaration_specifiers`. -/
def consume_c_declaration_specifiers (fuel : Nat) (at_most : Nat) (s : Sib) :
    M (List Ast × Sib) :=
  match fuel with
  | 0 => .error .outOfFuel
  | fuel + 1 => decl_specifiers_loop fuel at_most 0 [] s

  termination_by structural fuel

/-- The `while count < at_most and self._is_c_declaration_specifier()`
loop of `_consume_c_declaration_specifiers`; a sized type specifier is
consumed as a run and counts once per produced item. -/
def decl_specifiers_loop (fuel : Nat) (at_most count : Nat) (acc : List Ast)
    (s : Sib) : M (List Ast × Sib) :=
  match fuel with
  | 0 => .error .outOfFuel
  | fuel + 1 => do
    if count < at_most then do
      if ← is_c_declaration_specifier s.cur then
        if is_tree_sitter_sized_type_specifier s.cur then do
          let (specs, s) ← consume_tree_sitter_sized_type_specifier s
          decl_specifiers_loop fuel at_most (count + specs.length)
            (acc ++ specs) s
        else do
          let (x, s) ← consume_c_declaration_specifier fuel s
          decl_specifiers_loop fuel at_most (count + 1) (acc ++ [x]) s
      else .ok (acc, s)
    else .ok (acc, s)

  termination_by structural fuel

/-- `_consume_tree_sitter_declarator`.  `function_declarator` is in the
recognizer `_is_tree_sitter_declarator` but missing from this dispatch,
so it falls to the `CodeError` branch. -/
def consume_tree_sitter_declarator (fuel : Nat) (s : Sib) : M (Ast × Sib) :=
  match fuel with
  | 0 => .error .outOfFuel
  | fuel + 1 =>
    if s.cur.ty == "identifier" then
      consume_identifier_as_declarator s
    else if s.cur.ty == "init_declarator" then
      consume_tree_sitter_init_declarator fuel s
    else if s.cur.ty == "attributed_declarator" then
      consume_tree_sitter_attributed_declarator s
    else if s.cur.ty == "pointer_declarator" then
      consume_tree_sitter_pointer_declarator fuel s
    else if s.cur.ty == "array_declarator" then
      consume_tree_sitter_array_declarator fuel s
    else if s.cur.ty == "parenthesized_declarator" then
      consume_tree_sitter_parenthesized_declarator fuel s
    else
      .error (.codeError "unsupported declarator" (rangeOf s.cur))

  termination_by structural fuel

/-- `_consume_tree_sitter_init_declarator`.  The initializer branch
first evaluates `_is_c_expression`, which raises `NotImplementedError`. -/
def consume_tree_sitter_init_declarator (fuel : Nat) (s : Sib) : M (Ast × Sib) :=
  match fuel with
  | 0 => .error .outOfFuel
  | fuel + 1 => do
    let code_range := rangeOf s.cur
    let inner := descend s.cur
    let (declarator, inner) ← consume_tree_sitter_declarator fuel inner
    let inner ← consume_node_with_type "=" inner
    let (init, _) ← do
      if ← is_c_expression inner then do
        let (e, inner) ← consume_c_expression inner
        pure (Ast.initDeclarator code_range declarator e, inner)
      else do
        -- `_consume_tree_sitter_initializer_list` is unreachable: the
        -- guard above always raises first.
        .error .notImplemented
    return (init, adv s)

  termination_by structural fuel

/-- `_consume_tree_sitter_pointer_declarator`. -/
def consume_tree_sitter_pointer_declarator (fuel : Nat) (s : Sib) :
    M (Ast × Sib) :=
  match fuel with
  | 0 => .error .outOfFuel
  | fuel + 1 => do
    let code_range := rangeOf s.cur
    let child_count := s.cur.children.length
    let inner := descend s.cur
    if inner.cur.ty == "ms_based_modifier" then
      .error (.codeError "MSCV based modifier is not supported"
        (rangeOf inner.cur))
    else
    let inner ← consume_node_with_type "*" inner
    if inner.cur.ty == "ms_pointer_modifier" then
      .error (.codeError "MSCV point modifier is not supported"
        (rangeOf inner.cur))
    else
    let (qualifiers, inner) ← consume_c_type_qualifier_list (child_count - 1) inner
    let (declarator, _) ← consume_tree_sitter_declarator fuel inner
    return (.pointerDeclarator code_range
      (if qualifiers.isEmpty then none else some qualifiers) declarator, adv s)

  termination_by structural fuel

/-- `_consume_tree_sitter_function_declarator` (reachable only through
recursion, since the top-level declarator dispatch omits it). -/
def consume_tree_sitter_function_declarator (fuel : Nat) (s : Sib) :
    M (Ast × Sib) :=
  match fuel with
  | 0 => .error .outOfFuel
  | fuel + 1 => do
    let code_range := rangeOf s.cur
    let inner := descend s.cur
    let (declarator, inner) ← consume_tree_sitter_declarator fuel inner
    let (parameter_type_list, variadic, _) ←
      consume_c_parameter_type_list fuel inner
    return (.functionDeclarator code_range declarator parameter_type_list
      variadic, adv s)


/-- `_consume_tree_sitter_array_declarator`: the four-way array-size
classification.  The `*` branch does not consume the `*` token, and the
expression tests call `_is_c_expression`, which raises
`NotImplementedError`. -/
def consume_tree_sitter_array_declarator (fuel : Nat) (s : Sib) :
    M (Ast × Sib) :=
  match fuel with
  | 0 => .error .outOfFuel
  | fuel + 1 => do
    let code_range := rangeOf s.cur
    let inner := descend s.cur
    let sibling_count := s.cur.children.length
    let (declarator, inner) ← consume_tree_sitter_declarator fuel inner
    let array_size_start := inner.cur.startLoc
    let inner ← consume_node_with_type "[" inner
    let (size_kind, qualifiers, expression, inner) ←
      if inner.cur.ty == "*" then
        pure (ArraySizeKind.VariableUnknown, (none : Option (List Ast)),
          (none : Option Ast), inner)
      else if inner.cur.ty == "static" then do
        let inner ← consume_node_with_type "static" inner
        let (qualifiers, inner) ← do
          if ← is_c_type_qualifier inner.cur then do
            let (qs, inner) ← consume_c_type_qualifier_list sibling_count inner
            pure (some qs, inner)
          else pure (none, inner)
        let (e, inner) ← consume_c_expression inner
        pure (ArraySizeKind.StaticExpression, qualifiers, some e, inner)
      else do
        if ← is_c_type_qualifier inner.cur then do
          let (qs, inner) ← consume_c_type_qualifier_list sibling_count inner
          if inner.cur.ty == "static" then do
            let inner ← consume_node_with_type "static" inner
            let (e, inner) ← consume_c_expression inner
            pure (ArraySizeKind.StaticExpression, some qs, some e, inner)
          else do
            if ← is_c_expression inner then do
              let (e, inner) ← consume_c_expression inner
              pure (ArraySizeKind.VariableExpression, some qs, some e, inner)
            else
              -- `assert self._is_right_bracket()`
              if inner.cur.ty == "]" then
                pure (ArraySizeKind.Unknown, some qs, none, inner)
              else .error .assertFail
        else do
          if ← is_c_expression inner then do
            let (e, inner) ← consume_c_expression inner
            pure (ArraySizeKind.VariableExpression, none, some e, inner)
          else
            -- `assert self._is_right_bracket()`
            if inner.cur.ty == "]" then
              pure (ArraySizeKind.Unknown, none, none, inner)
            else .error .assertFail
    let array_size_end := inner.cur.stopLoc
    let _ ← consume_node_with_type "]" inner
    let array_size := Ast.arraySize ⟨theFile, array_size_start, array_size_end⟩
      size_kind qualifiers expression
    return (.arrayDeclarator code_range declarator array_size, adv s)

  termination_by structural fuel

/-- `_consume_tree_sitter_parenthesized_declarator`. -/
def consume_tree_sitter_parenthesized_declarator (fuel : Nat) (s : Sib) :
    M (Ast × Sib) :=
  match fuel with
  | 0 => .error .outOfFuel
  | fuel + 1 => do
    let code_range := rangeOf s.cur
    let inner := descend s.cur
    let inner ← consume_node_with_type "(" inner
    if inner.cur.ty == "ms_call_modifier" then
      .error (.codeError "MSVC call modifier is not supported"
        (rangeOf inner.cur))
    else
    let (declarator, inner) ← consume_tree_sitter_declarator fuel inner
    let _ ← consume_node_with_type ")" inner
    return (.parenthesizedDeclarator code_range declarator, adv s)

  termination_by structural fuel

/-- The `while not self._is_right_parenthesis()` loop of
`_consume_c_parameter_type_list`. -/
def parameter_list_loop (fuel : Nat) (acc : List Ast) (variadic : Bool)
    (s : Sib) : M (List Ast × Bool × Sib) :=
  match fuel with
  | 0 => .error .outOfFuel
  | fuel + 1 =>
    if s.cur.ty == ")" then .ok (acc, variadic, s)
    else do
      let s ← consume_node_with_type "," s
      if is_c_parameter_declaration s.cur then do
        let (p, s) ← consume_c_parameter_declaration fuel s
        parameter_list_loop fuel (acc ++ [p]) variadic s
      else do
        let s ← consume_node_with_type "variadic_parameter" s
        parameter_list_loop fuel acc true s

  termination_by structural fuel

/-- `_consume_c_parameter_type_list`. -/
def consume_c_parameter_type_list (fuel : Nat) (s : Sib) :
    M (List Ast × Bool × Sib) :=
  match fuel with
  | 0 => .error .outOfFuel
  | fuel + 1 => do
    if s.cur.ty != "parameter_list" then .error .assertFail else
    let inner := descend s.cur
    let inner ← consume_node_with_type "(" inner
    let (list_, inner) ←
      if inner.cur.ty != ")" then do
        let (p, inner) ← consume_c_parameter_declaration fuel inner
        pure ([p], inner)
      else pure ([], inner)
    let (list_, variadic, inner) ← parameter_list_loop fuel list_ false inner
    let _ ← consume_node_with_type ")" inner
    return (list_, variadic, adv s)

  termination_by structural fuel

/-- `_consume_c_parameter_declaration`.  The named-declarator test is
`_is_c_declaration` (node type `declaration`), which a declarator child
never is, so named parameter declarators are silently skipped. -/
def consume_c_parameter_declaration (fuel : Nat) (s : Sib) : M (Ast × Sib) :=
  match fuel with
  | 0 => .error .outOfFuel
  | fuel + 1 => do
    let code_range := rangeOf s.cur
    let inner := descend s.cur
    let sibling_count := s.cur.children.length
    let (specifiers, inner) ←
      consume_c_declaration_specifiers fuel sibling_count inner
    let (declarator, inner) ←
      if is_c_declaration inner.cur then do
        let (d, inner) ← consume_tree_sitter_declarator fuel inner
        pure (some d, inner)
      else if is_c_abstract_declarator inner.cur then do
        let (d, inner) ← consume_c_abstract_declarator fuel inner
        pure (some d, inner)
      else pure (none, inner)
    let (attributes, _) ← try_consume_c_attribute_list fuel
      (if declarator.isSome then sibling_count - specifiers.length - 1 else 0)
      inner
    return (.parameterDeclaration code_range specifiers declarator attributes,
      adv s)

  termination_by structural fuel

/-- `_consume_c_abstract_declarator`. -/
def consume_c_abstract_declarator (fuel : Nat) (s : Sib) : M (Ast × Sib) :=
  match fuel with
  | 0 => .error .outOfFuel
  | fuel + 1 =>
    if s.cur.ty == "abstract_pointer_declarat" then
      consume_c_abstract_pointer_declarator fuel s
    else if s.cur.ty == "abstract_function_declarator" then
      consume_c_abstract_function_declarator fuel s
    else if s.cur.ty == "abstract_array_declarator" then
      consume_c_abstract_array_declarator fuel s
    else if s.cur.ty == "abstract_parenthesized_declarator" then
      consume_c_abstract_parenthesized_declarator fuel s
    else
      .error (.codeError "not a C abstract declarator" (rangeOf s.cur))

  termination_by structural fuel

/-- `_try_consume_c_abstract_declarator`. -/
def try_consume_c_abstract_declarator (fuel : Nat) (s : Sib) :
    M (Option Ast × Sib) :=
  match fuel with
  | 0 => .error .outOfFuel
  | fuel + 1 =>
    if !is_c_abstract_declarator s.cur then .ok (none, s)
    else do
      let (d, s) ← consume_c_abstract_declarator fuel s
      return (some d, s)

  termination_by structural fuel

/-- `_consume_c_abstract_pointer_declarator` (recognizable only through
the misspelled `abstract_pointer_declarat` type tag). -/
def consume_c_abstract_pointer_declarator (fuel : Nat) (s : Sib) :
    M (Ast × Sib) :=
  match fuel with
  | 0 => .error .outOfFuel
  | fuel + 1 => do
    let code_range := rangeOf s.cur
    let child_count := s.cur.children.length
    let inner := descend s.cur
    let inner ← consume_node_with_type "*" inner
    if inner.cur.ty == "ms_pointer_modifier" then
      .error (.codeError "MSCV point modifier is not supported"
        (rangeOf inner.cur))
    else
    let (qualifiers, inner) ← consume_c_type_qualifier_list (child_count - 1) inner
    let (declarator, _) ← try_consume_c_abstract_declarator fuel inner
    return (.abstractPointerDeclarator code_range
      (if qualifiers.isEmpty then none else some qualifiers) declarator, adv s)

  termination_by structural fuel

/-- `_consume_c_abstract_function_declarator`. -/
def consume_c_abstract_function_declarator (fuel : Nat) (s : Sib) :
    M (Ast × Sib) :=
  match fuel with
  | 0 => .error .outOfFuel
  | fuel + 1 => do
    let code_range := rangeOf s.cur
    let inner := descend s.cur
    let (declarator, inner) ← try_consume_c_abstract_declarator fuel inner
    let (parameter_type_list, variadic, _) ←
      consume_c_parameter_type_list fuel inner
    return (.abstractFunctionDeclarator code_range declarator
      parameter_type_list variadic, adv s)

  termination_by structural fuel

/-- `_consume_c_abstract_array_declarator`: same classification bugs as
the named array declarator. -/
def consume_c_abstract_array_declarator (fuel : Nat) (s : Sib) :
    M (Ast × Sib) :=
  match fuel with
  | 0 => .error .outOfFuel
  | fuel + 1 => do
    let code_range := rangeOf s.cur
    let inner := descend s.cur
    let sibling_count := s.cur.children.length
    let (declarator, inner) ← try_consume_c_abstract_declarator fuel inner
    let array_size_start := inner.cur.startLoc
    let inner ← consume_node_with_type "[" inner
    let (size_kind, qualifiers, expression, inner) ←
      if inner.cur.ty == "*" then
        pure (ArraySizeKind.VariableUnknown, (none : Option (List Ast)),
          (none : Option Ast), inner)
      else if inner.cur.ty == "static" then do
        let inner ← consume_node_with_type "static" inner
        let (qualifiers, inner) ← do
          if ← is_c_type_qualifier inner.cur then do
            let (qs, inner) ← consume_c_type_qualifier_list sibling_count inner
            pure (some qs, inner)
          else pure (none, inner)
        let (e, inner) ← consume_c_expression inner
        pure (ArraySizeKind.StaticExpression, qualifiers, some e, inner)
      else do
        if ← is_c_type_qualifier inner.cur then do
          let (qs, inner) ← consume_c_type_qualifier_list sibling_count inner
          if inner.cur.ty == "static" then do
            let inner ← consume_node_with_type "static" inner
            let (e, inner) ← consume_c_expression inner
            pure (ArraySizeKind.StaticExpression, some qs, some e, inner)
          else do
            if ← is_c_expression inner then do
              let (e, inner) ← consume_c_expression inner
              pure (ArraySizeKind.VariableExpression, some qs, some e, inner)
            else
              if inner.cur.ty == "]" then
                pure (ArraySizeKind.Unknown, some qs, none, inner)
              else .error .assertFail
        else do
          if ← is_c_expression inner then do
            let (e, inner) ← consume_c_expression inner
            pure (ArraySizeKind.VariableExpression, none, some e, inner)
          else
            if inner.cur.ty == "]" then
              pure (ArraySizeKind.Unknown, none, none, inner)
            else .error .assertFail
    let array_size_end := inner.cur.stopLoc
    let _ ← consume_node_with_type "]" inner
    let array_size := Ast.arraySize ⟨theFile, array_size_start, array_size_end⟩
      size_kind qualifiers expression
    return (.abstractArrayDeclarator code_range declarator array_size, adv s)

  termination_by structural fuel

/-- `_consume_c_abstract_parenthesized_declarator`. -/
def consume_c_abstract_parenthesized_declarator (fuel : Nat) (s : Sib) :
    M (Ast × Sib) :=
  match fuel with
  | 0 => .error .outOfFuel
  | fuel + 1 => do
    let code_range := rangeOf s.cur
    let inner := descend s.cur
    let inner ← consume_node_with_type "(" inner
    if inner.cur.ty == "ms_call_modifier" then
      .error (.codeError "MSVC call modifier is not supported"
        (rangeOf inner.cur))
    else
    let (declarator, inner) ← consume_c_abstract_declarator fuel inner
    let _ ← consume_node_with_type ")" inner
    return (.abstractParenthesizedDeclarator code_range declarator, adv s)

  termination_by structural fuel
end

/-! ## Top-level driver -/

/-- The `while self._is_tree_sitter_declarator()` loop of
`_parse_c_declaration`. -/
def declaration_declarators_loop (fuel : Nat) (acc : List Ast) (s : Sib) :
    M (List Ast × Sib) :=
  match fuel with
  | 0 => .error .outOfFuel
  | fuel + 1 =>
    if is_tree_sitter_declarator s.cur then do
      let (d, s) ← consume_tree_sitter_declarator fuel s
      declaration_declarators_loop fuel (acc ++ [d]) s
    else .ok (acc, s)

/-- `_parse_c_declaration`.  A `_parse_*` method: the cursor is restored
onto the declaration node itself (`goto_parent` without a sibling
advance), so the embedding is a function of the node. -/
def parse_c_declaration (fuel : Nat) (t : TS) : M Ast := do
  if !is_c_declaration t then .error .assertFail else
  let code_range := rangeOf t
  let inner := descend t
  let sibling_count := t.children.length
  let (decl_specifiers, inner) ←
    consume_c_declaration_specifiers fuel sibling_count inner
  let (declarators, inner) ← declaration_declarators_loop fuel [] inner
  let _ ← consume_node_with_type ";" inner
  return .declaration code_range decl_specifiers
    (if declarators.isEmpty then none else some declarators)

/-- `_is_top_level_preprocess_directive`
(`TreeSitterTopLevelPreprocessType`). -/
def is_top_level_preprocess_directive (t : TS) : Bool :=
  t.ty == "preproc_if" || t.ty == "preproc_ifdef" ||
  t.ty == "preproc_include" || t.ty == "preproc_def" ||
  t.ty == "preproc_function_def" || t.ty == "preproc_call"

/-- `_is_top_level_c_ordinary_node` (`TreeSitterTopLevelCNodeType`). -/
def is_top_level_c_ordinary_node (t : TS) : Bool :=
  t.ty == "declaration" || t.ty == "function_definition" ||
  t.ty == "linkage_specification" || t.ty == "attributed_statement" ||
  t.ty == "type_definition" || t.ty == "expression_statement"

/-- `_should_skip`. -/
def should_skip (t : TS) : Bool := t.ty == "comment"

/-- `_is_preprocess_if_section`. -/
def is_preprocess_if_section (t : TS) : Bool :=
  t.ty == "preproc_if" || t.ty == "preproc_ifdef"

/-- `_is_preprocess_if_directive`. -/
def is_preprocess_if_directive (t : TS) : Bool := t.ty == "preproc_if"

/-- `_is_preprocess_elif`: compares against
`TreeSitterPreprocessElseType.Elif.value`, the misspelled
`proproc_elif`, so it never matches a real `preproc_elif` node. -/
def is_preprocess_elif (t : TS) : Bool :=
  t.ty == TreeSitterPreprocessElseType.Elif.value

/-- `_is_preprocess_else`. -/
def is_preprocess_else (t : TS) : Bool :=
  t.ty == TreeSitterPreprocessElseType.Else.value

/-- `_try_fix_error`: `raise NotImplementedError()`. -/
def try_fix_error : M Bool := .error .notImplemented

mutual

/-- `_try_parse_top_level_ast_node`. -/
def try_parse_top_level_ast_node (fuel : Nat) (t : TS) : M (Option Ast) :=
  match fuel with
  | 0 => .error .outOfFuel
  | fuel + 1 =>
    if is_top_level_preprocess_directive t then do
      let a ← parse_top_level_preprocess_directive fuel t
      return some a
    else if is_top_level_c_ordinary_node t then do
      let a ← parse_top_level_c_node fuel t
      return some a
    else
      return none

/-- `_parse_top_level_preprocess_directive`. -/
def parse_top_level_preprocess_directive (fuel : Nat) (t : TS) : M Ast :=
  match fuel with
  | 0 => .error .outOfFuel
  | fuel + 1 => do
    if !is_top_level_preprocess_directive t then .error .assertFail else
    if t.ty == "preproc_include" then parse_preprocess_include fuel t
    else if is_preprocess_call t then parse_preprocess_call t
    else if is_preprocess_if_section t then parse_preprocess_if_section fuel t
    else if is_preprocess_define t then parse_preprocess_define t
    else if is_preprocess_function_define t then
      parse_preprocess_function_define fuel t
    else .error (.unreachableE none)

/-- `_parse_top_level_c_node`.  `_parse_c_type_definition` and
`_parse_c_function_definition` raise `NotImplementedError`, as does the
fall-through for the remaining ordinary node types. -/
def parse_top_level_c_node (fuel : Nat) (t : TS) : M Ast :=
  match fuel with
  | 0 => .error .outOfFuel
  | fuel + 1 =>
    if is_c_declaration t then parse_c_declaration fuel t
    else if t.ty == "type_definition" then .error .notImplemented
    else if t.ty == "function_definition" then .error .notImplemented
    else .error .notImplemented

/-- `_parse_preprocess_if_section`. -/
def parse_preprocess_if_section (fuel : Nat) (t : TS) : M Ast :=
  match fuel with
  | 0 => .error .outOfFuel
  | fuel + 1 => do
    if !is_preprocess_if_section t then .error .assertFail else
    let code_range := rangeOf t
    let is_if_directive := is_preprocess_if_directive t
    let inner := descend t
    let (if_head_node, inner) ←
      if is_if_directive then consume_preprocess_if_directive_head fuel inner
      else consume_preprocess_ifdef_directive_head fuel inner
    let (elif_groups, inner) ← preprocess_elif_loop fuel [] inner
    let (else_group, inner) ←
      if is_preprocess_else inner.cur then do
        let (g, inner) ← consume_preprocess_else fuel inner
        pure (some g, inner)
      else pure (none, inner)
    let endif_code_range := rangeOf inner.cur
    let _ ← consume_node_with_type "#endif" inner
    return .ifSectionDirective code_range if_head_node
      (if elif_groups.isEmpty then none else some elif_groups) else_group
      (.endIfDirective endif_code_range)

/-- The `while self._is_preprocess_elif()` loop of
`_parse_preprocess_if_section`; its guard tests the misspelled node
type, so on grammar-produced CSTs it never iterates. -/
def preprocess_elif_loop (fuel : Nat) (acc : List Ast) (s : Sib) :
    M (List Ast × Sib) :=
  match fuel with
  | 0 => .error .outOfFuel
  | fuel + 1 =>
    if is_preprocess_elif s.cur then do
      let (g, s) ← consume_preprocess_elif fuel s
      preprocess_elif_loop fuel (acc ++ [g]) s
    else .ok (acc, s)

/-- `_consume_preprocess_if_directive_head`. -/
def consume_preprocess_if_directive_head (fuel : Nat) (s : Sib) :
    M (Ast × Sib) :=
  match fuel with
  | 0 => .error .outOfFuel
  | fuel + 1 => do
    let start := s.cur.startLoc
    let s ← consume_node_with_type "#if" s
    let cond_end := s.cur.stopLoc
    let (condition, s) ← consume_preprocess_expression fuel s
    let s ← consume_node_with_type "\n" s
    let (group, s) ← try_consume_preprocess_group fuel s
    let stop :=
      match group with
      | some g =>
        match g.getLast? with
        | some a => a.range.stop
        | none => cond_end
      | none => cond_end
    return (.ifDirective ⟨theFile, start, stop⟩ group condition, s)

/-- `_consume_preprocess_ifdef_directive_head`. -/
def consume_preprocess_ifdef_directive_head (fuel : Nat) (s : Sib) :
    M (Ast × Sib) :=
  match fuel with
  | 0 => .error .outOfFuel
  | fuel + 1 => do
    if !(s.cur.ty == "#ifdef" || s.cur.ty == "#ifndef") then
      .error .assertFail
    else
    let is_ifdef := s.cur.ty == "#ifdef"
    let start := s.cur.startLoc
    let s := adv s
    let id_end := s.cur.stopLoc
    let (identifier, s) ← consume_tree_sitter_identifier s
    let (group, s) ← try_consume_preprocess_group fuel s
    let stop :=
      match group with
      | some g =>
        match g.getLast? with
        | some a => a.range.stop
        | none => id_end
      | none => id_end
    let code_range : CRange := ⟨theFile, start, stop⟩
    if is_ifdef then
      return (.ifDefDirective code_range group identifier, s)
    else
      return (.ifUndefDirective code_range group identifier, s)

/-- The `while True` loop of `_try_consume_preprocess_group`: stop on
the first node that is not a top-level AST node, or at the last sibling. -/
def preprocess_group_loop (fuel : Nat) (acc : List Ast) (s : Sib) :
    M (List Ast × Sib) :=
  match fuel with
  | 0 => .error .outOfFuel
  | fuel + 1 => do
    match ← try_parse_top_level_ast_node fuel s.cur with
    | none => .ok (acc, s)
    | some a =>
      match s.rest with
      | [] => .ok (acc ++ [a], s)
      | c :: r => preprocess_group_loop fuel (acc ++ [a]) ⟨c, r⟩

/-- `_try_consume_preprocess_group`. -/
def try_consume_preprocess_group (fuel : Nat) (s : Sib) :
    M (Option (List Ast) × Sib) :=
  match fuel with
  | 0 => .error .outOfFuel
  | fuel + 1 => do
    let (group, s) ← preprocess_group_loop fuel [] s
    return (if group.isEmpty then none else some group, s)

/-- `_consume_preprocess_elif` (dead on grammar-produced CSTs because
its caller's guard never fires). -/
def consume_preprocess_elif (fuel : Nat) (s : Sib) : M (Ast × Sib) :=
  match fuel with
  | 0 => .error .outOfFuel
  | fuel + 1 => do
    if !is_preprocess_elif s.cur then .error .assertFail else
    let inner := descend s.cur
    let elif_start := inner.cur.startLoc
    let inner ← consume_node_with_type "#elif" inner
    let cond_end := inner.cur.stopLoc
    let (condition, inner) ← consume_preprocess_expression fuel inner
    let (group, _) ← try_consume_preprocess_group fuel inner
    let elif_end :=
      match group with
      | some g =>
        match g.getLast? with
        | some a => a.range.stop
        | none => cond_end
      | none => cond_end
    return (.elifDirective ⟨theFile, elif_start, elif_end⟩ group condition,
      adv s)

/-- `_consume_preprocess_else`. -/
def consume_preprocess_else (fuel : Nat) (s : Sib) : M (Ast × Sib) :=
  match fuel with
  | 0 => .error .outOfFuel
  | fuel + 1 => do
    if !is_preprocess_else s.cur then .error .assertFail else
    let code_range := rangeOf s.cur
    let inner := descend s.cur
    let inner ← consume_node_with_type "#else" inner
    let (group, _) ← try_consume_preprocess_group fuel inner
    return (.elseDirective code_range group, adv s)

end

/-- `_parse_top_level_ast_node`. -/
def parse_top_level_ast_node (fuel : Nat) (t : TS) : M Ast := do
  match ← try_parse_top_level_ast_node fuel t with
  | some a => return a
  | none =>
    .error (.codeError ("unsupported node type: " ++ t.ty) (rangeOf t))

/-- The `while True` loop of `parse_module`.  When a node's subtree has
an error, `_try_fix_error()` is consulted, and it raises
`NotImplementedError` — so the `CodeError` naming the node type on the
next line is never reached. -/
def top_level_loop (fuel : Nat) (acc : List Ast) (s : Sib) : M (List Ast) :=
  match fuel with
  | 0 => .error .outOfFuel
  | fuel + 1 => do
    let _ ←
      if s.cur.hasErr then do
        let fixed ← try_fix_error
        if !fixed then
          .error (.codeError s.cur.ty (rangeOf s.cur))
        else pure ()
      else pure ()
    let acc ←
      if !should_skip s.cur then do
        let a ← parse_top_level_ast_node fuel s.cur
        pure (acc ++ [a])
      else pure acc
    match s.rest with
    | [] => .ok acc
    | c :: r => top_level_loop fuel acc ⟨c, r⟩

/-- `parse_module`.  The source's `if self._cursor.node is None` guard
immediately follows `assert tu is not None`, so it can never be taken
and is not represented.  On a childless root `goto_first_child()` fails
and the loop body runs with the cursor still on the root node, which is
what `descend` yields there. -/
def parse_module (fuel : Nat) (root : TS) : M Ast :=
  match fuel with
  | 0 => .error .outOfFuel
  | fuel + 1 => do
    if root.ty != "translation_unit" then .error .assertFail else
    let tu_code_range := rangeOf root
    let nodes ← top_level_loop fuel [] (descend root)
    return .translationUnit tu_code_range nodes

/-! ## The explicit cursor model (for the cursor contract)

The sibling-sequence embedding above bakes the cursor discipline into
its state threading; to state the cursor contract itself, the
tree-sitter cursor is modelled explicitly as a tree plus a child-index
path, with the library's `goto_next_sibling` semantics. -/

/-- `children[i]`. -/
def childAt : List TS → Nat → Option TS
  | [], _ => none
  | c :: _, 0 => some c
  | _ :: cs, n + 1 => childAt cs n

/-- The node at a child-index path, innermost index first: path
`i :: ps` denotes child `i` of the node at path `ps`. -/
def nodeAtPath (root : TS) : List Nat → Option TS
  | [] => some root
  | i :: ps =>
    match nodeAtPath root ps with
    | none => none
    | some p => childAt p.children i

/-- A tree-sitter `TreeCursor`: the tree and the path of the current
node. -/
structure Cursor where
  tree : TS
  path : List Nat

/-- `cursor.node`. -/
def Cursor.node (c : Cursor) : Option TS := nodeAtPath c.tree c.path

/-- `cursor.goto_next_sibling()`: moves to the next sibling and reports
`True`; at the root or at the last sibling it reports `False` and the
cursor stays where it is. -/
def gotoNextSibling (c : Cursor) : Cursor × Bool :=
  match c.path with
  | [] => (c, false)
  | i :: ps =>
    match nodeAtPath c.tree ps with
    | none => (c, false)
    | some parent =>
      match childAt parent.children (i + 1) with
      | some _ => (⟨c.tree, (i + 1) :: ps⟩, true)
      | none => (c, false)

/-- `_consume_node_with_type` over the explicit cursor: on a type match
it performs `goto_next_sibling` (whose failure at the last sibling is
ignored) and returns.  A `None` cursor node makes `_is_node_type` false
and the error constructor's range helper then fails its own assert. -/
def consume_node_with_type_cursor (node_type : String) (c : Cursor) : M Cursor :=
  match c.node with
  | none => .error .assertFail
  | some n =>
    if n.ty == node_type then .ok (gotoNextSibling c).1
    else .error (.codeError ("expect node with type " ++ node_type) (rangeOf n))

/-! ## Concrete CST inputs

Shapes follow the tree-sitter-c grammar the source links for each
production.  Locations are zeroed: no claim under test compares
locations of distinct nodes. -/

/-- A leaf token node. -/
def tok (ty : String) : TS := .node ty ty false ⟨0, 0⟩ ⟨0, 0⟩ []

/-- An interior node (text left empty). -/
def nd (ty : String) (cs : List TS) : TS := .node ty "" false ⟨0, 0⟩ ⟨0, 0⟩ cs

/-- A node with raw text (identifiers, literals, primitive types). -/
def ndt (ty text : String) (cs : List TS) : TS :=
  .node ty text false ⟨0, 0⟩ ⟨0, 0⟩ cs

/-- An empty translation unit: the root CST node with no children. -/
def tu_empty : TS := nd "translation_unit" []

/-- `int a[];`. -/
def tu_a_unsized : TS :=
  nd "translation_unit" [nd "declaration" [ndt "primitive_type" "int" [],
    nd "array_declarator" [ndt "identifier" "a" [], tok "[", tok "]"],
    tok ";"]]

/-- `int a[10];`. -/
def tu_a10 : TS :=
  nd "translation_unit" [nd "declaration" [ndt "primitive_type" "int" [],
    nd "array_declarator" [ndt "identifier" "a" [], tok "[",
      ndt "number_literal" "10" [], tok "]"],
    tok ";"]]

/-- `int a[static 10];`. -/
def tu_a_static10 : TS :=
  nd "translation_unit" [nd "declaration" [ndt "primitive_type" "int" [],
    nd "array_declarator" [ndt "identifier" "a" [], tok "[", tok "static",
      ndt "number_literal" "10" [], tok "]"],
    tok ";"]]

/-- `struct S { #ifdef F #endif };` — an empty guarded region. -/
def tu_struct_ifdef_empty : TS :=
  nd "translation_unit" [nd "declaration" [nd "struct_specifier" [tok "struct",
    ndt "type_identifier" "S" [],
    nd "field_declaration_list" [tok "\x7b",
      nd "preproc_ifdef_in_field_declaration_list" [tok "#ifdef",
        ndt "identifier" "F" [], tok "#endif"],
      tok "\x7d"]],
    tok ";"]]

/-- `struct S { #ifdef F int; #endif };` — one guarded field. -/
def tu_struct_ifdef_field : TS :=
  nd "translation_unit" [nd "declaration" [nd "struct_specifier" [tok "struct",
    ndt "type_identifier" "S" [],
    nd "field_declaration_list" [tok "\x7b",
      nd "preproc_ifdef_in_field_declaration_list" [tok "#ifdef",
        ndt "identifier" "F" [],
        nd "field_declaration" [ndt "primitive_type" "int" [], tok ";"],
        tok "#endif"],
      tok "\x7d"]],
    tok ";"]]

/-- `struct S { #if A #elif B #endif };` — empty `#if` and `#elif`
regions. -/
def tu_struct_if_elif_empty : TS :=
  nd "translation_unit" [nd "declaration" [nd "struct_specifier" [tok "struct",
    ndt "type_identifier" "S" [],
    nd "field_declaration_list" [tok "\x7b",
      nd "preproc_if_in_field_declaration_list" [tok "#if",
        ndt "identifier" "A" [], tok "\n",
        nd "preproc_elif_in_field_declaration_list" [tok "#elif",
          ndt "identifier" "B" [], tok "\n"],
        tok "#endif"],
      tok "\x7d"]],
    tok ";"]]

/-- `struct S { #if A #else #endif };` — empty `#else` region. -/
def tu_struct_if_else_empty : TS :=
  nd "translation_unit" [nd "declaration" [nd "struct_specifier" [tok "struct",
    ndt "type_identifier" "S" [],
    nd "field_declaration_list" [tok "\x7b",
      nd "preproc_if_in_field_declaration_list" [tok "#if",
        ndt "identifier" "A" [], tok "\n",
        nd "preproc_else_in_field_declaration_list" [tok "#else"],
        tok "#endif"],
      tok "\x7d"]],
    tok ";"]]

/-- `enum E { #if X #endif };` — an empty guarded enumerator region. -/
def tu_enum_if_empty : TS :=
  nd "translation_unit" [nd "declaration" [nd "enum_specifier" [tok "enum",
    ndt "type_identifier" "E" [],
    nd "enumerator_list" [tok "\x7b",
      nd "preproc_if_in_enumerator_list" [tok "#if", ndt "identifier" "X" [],
        tok "\n", tok "#endif"],
      tok "\x7d"]],
    tok ";"]]

/-- A unit whose single top-level node's subtree reports a syntax
error. -/
def tu_err : TS :=
  nd "translation_unit" [.node "declaration" "" true ⟨0, 0⟩ ⟨0, 0⟩ []]

/-- `#if A` / `#elif B` / `#endif` at top level. -/
def tu_if_elif : TS :=
  nd "translation_unit" [nd "preproc_if" [tok "#if", ndt "identifier" "A" [],
    tok "\n",
    nd "preproc_elif" [tok "#elif", ndt "identifier" "B" [], tok "\n"],
    tok "#endif"]]

/-- `#if A` / `#endif` at top level, no `#elif`. -/
def tu_if_plain : TS :=
  nd "translation_unit" [nd "preproc_if" [tok "#if", ndt "identifier" "A" [],
    tok "\n", tok "#endif"]]

/-- `#if A` / `#elifdef B` / `#endif` at top level. -/
def tu_if_elifdef : TS :=
  nd "translation_unit" [nd "preproc_if" [tok "#if", ndt "identifier" "A" [],
    tok "\n",
    nd "preproc_elifdef" [tok "#elifdef", ndt "identifier" "B" [], tok "\n"],
    tok "#endif"]]

/-- `struct S { #ifdef F #elifdef G #endif };`. -/
def tu_struct_elifdef : TS :=
  nd "translation_unit" [nd "declaration" [nd "struct_specifier" [tok "struct",
    ndt "type_identifier" "S" [],
    nd "field_declaration_list" [tok "\x7b",
      nd "preproc_ifdef_in_field_declaration_list" [tok "#ifdef",
        ndt "identifier" "F" [],
        nd "preproc_elifdef_in_field_declaration_list" [tok "#elifdef",
          ndt "identifier" "G" []],
        tok "#endif"],
      tok "\x7d"]],
    tok ";"]]

/-- `enum E { #if X #elifdef Y #endif };`. -/
def tu_enum_elifdef : TS :=
  nd "translation_unit" [nd "declaration" [nd "enum_specifier" [tok "enum",
    ndt "type_identifier" "E" [],
    nd "enumerator_list" [tok "\x7b",
      nd "preproc_if_in_enumerator_list" [tok "#if", ndt "identifier" "X" [],
        tok "\n",
        nd "preproc_elifdef_in_enumerator_list" [tok "#elifdef",
          ndt "identifier" "Y" []],
        tok "#endif"],
      tok "\x7d"]],
    tok ";"]]

/-- A struct specifier with neither tag nor field list. -/
def tu_struct_bare : TS :=
  nd "translation_unit" [nd "declaration" [nd "struct_specifier" [tok "struct"],
    tok ";"]]

/-- An enum specifier with neither tag nor enumerator list. -/
def tu_enum_bare : TS :=
  nd "translation_unit" [nd "declaration" [nd "enum_specifier" [tok "enum"],
    tok ";"]]

/-- `struct Foo;` — tag only. -/
def tu_struct_tag : TS :=
  nd "translation_unit" [nd "declaration" [nd "struct_specifier" [tok "struct",
    ndt "type_identifier" "Foo" []], tok ";"]]

/-- `struct { };` — field list only. -/
def tu_struct_body : TS :=
  nd "translation_unit" [nd "declaration" [nd "struct_specifier" [tok "struct",
    nd "field_declaration_list" [tok "\x7b", tok "\x7d"]], tok ";"]]

/-- `enum E;` — tag only. -/
def tu_enum_tag : TS :=
  nd "translation_unit" [nd "declaration" [nd "enum_specifier" [tok "enum",
    ndt "type_identifier" "E" []], tok ";"]]

/-- `enum { };` — enumerator list only. -/
def tu_enum_list : TS :=
  nd "translation_unit" [nd "declaration" [nd "enum_specifier" [tok "enum",
    nd "enumerator_list" [tok "\x7b", tok "\x7d"]], tok ";"]]

/-! ## Outcome projections -/

/-- The message of a `CodeError` outcome, if that is what happened. -/
def errMsg? {α : Type} : M α → Option String
  | .error (.codeError m _) => some m
  | _ => none

/-- Whether lowering returned normally. -/
def isOk {α : Type} : M α → Bool
  | .ok _ => true
  | .error _ => false

/-- The totality claim's allowed outcomes: a returned value, a
`CodeError`, or an `Unreachable`. -/
def escapesAsSpecified {α : Type} : M α → Bool
  | .ok _ => true
  | .error (.codeError _ _) => true
  | .error (.unreachableE _) => true
  | .error _ => false

/-- The allowed outcomes with `NotImplementedError` added. -/
def escapesAsAmended {α : Type} : M α → Bool
  | .ok _ => true
  | .error (.codeError _ _) => true
  | .error (.unreachableE _) => true
  | .error .notImplemented => true
  | .error _ => false

/-- The first macro-conditional struct declaration of the first
declaration's first specifier of a lowered unit. -/
def first_struct_cond : M Ast → Option Ast
  | .ok (.translationUnit _ (Ast.declaration _ (spec :: _) _ :: _)) =>
    match spec with
    | .structOrUnionSpecifier _ _ _ (some (d :: _)) =>
      match d with
      | .macroConditionalStructDeclaration r g es e =>
        some (.macroConditionalStructDeclaration r g es e)
      | _ => none
    | _ => none
  | _ => none

/-- The `declarations` list of the head (`#if`/`#ifdef`) group of that
conditional. -/
def cond_if_group_decls (r : M Ast) : Option (Option (List Ast)) :=
  match first_struct_cond r with
  | some (.macroConditionalStructDeclaration _ g _ _) =>
    match g with
    | .macroStructDeclarationIfGroup _ decls _ => some decls
    | .macroStructDeclarationIfdefGroup _ decls _ _ => some decls
    | _ => none
  | _ => none

/-- `cond_if_group_decls`, reduced to the body-list length. -/
def cond_if_group_size (r : M Ast) : Option (Option Nat) :=
  (cond_if_group_decls r).map (fun o => o.map List.length)

/-- The `declarations` list of the first `#elif` group of that
conditional. -/
def cond_elif_group_decls (r : M Ast) : Option (Option (List Ast)) :=
  match first_struct_cond r with
  | some (.macroConditionalStructDeclaration _ _ (some (g :: _)) _) =>
    match g with
    | .macroStructDeclarationElifGroup _ decls _ => some decls
    | _ => none
  | _ => none

/-- The `declarations` list of the `#else` group of that conditional. -/
def cond_else_group_decls (r : M Ast) : Option (Option (List Ast)) :=
  match first_struct_cond r with
  | some (.macroConditionalStructDeclaration _ _ _ (some g)) =>
    match g with
    | .macroStructDeclarationElseGroup _ decls => some decls
    | _ => none
  | _ => none

/-- The `enumerators` list of the `#if` head group of the first macro
enumerator list of a lowered unit. -/
def enum_if_group_enums (r : M Ast) : Option (Option (List Ast)) :=
  match r with
  | .ok (.translationUnit _ (Ast.declaration _ (spec :: _) _ :: _)) =>
    match spec with
    | .enumSpecifier _ _ (some (e :: _)) =>
      match e with
      | .macroEnumeratorList _ g _ _ =>
        match g with
        | .macroEnumeratorIfGroup _ enums _ => some enums
        | .macroEnumeratorIfdefGroup _ enums _ _ => some enums
        | _ => none
      | _ => none
    | _ => none
  | _ => none

/-- The number of `ElifDirective`s of the first `IfSectionDirective` of
a lowered unit (`none` when the unit did not lower to an if-section). -/
def if_section_elif_count (r : M Ast) : Option Nat :=
  match r with
  | .ok (.translationUnit _ (Ast.ifSectionDirective _ _ elifs _ _ :: _)) =>
    match elifs with
    | some gs => some gs.length
    | none => some 0
  | _ => none

/-! ## Helper lemma -/

/-- Binding an errored `Except` propagates the error. -/
theorem M.error_bind {α β : Type} (e : PyExc) (f : α → M β) :
    (Except.error e : M α) >>= f = .error e := rfl

/-! ## Claims -/

/-- C1 (counterexample): the totality claim says that on inputs built
from supported productions `parse_module` returns a `TranslationUnit` or
raises exactly `CodeError` or `Unreachable`.  On `int a[10];` — an input
the specification itself lists among its supported classification
examples — lowering raises `NotImplementedError` instead (from the
unimplemented `_is_c_expression`), so the outcome is none of the three
allowed ones. -/
theorem C1_counterexample :
    escapesAsSpecified (parse_module 100 tu_a10) = false ∧
    parse_module 100 tu_a10 = .error .notImplemented := ⟨rfl, rfl⟩

/-- C1 (amended): lowering never yields a partial tree — each of the
supported-production inputs exercised in this development either lowers
to a complete `TranslationUnit` or raises exactly one of `CodeError`,
`Unreachable`, or `NotImplementedError` (the last for the
declared-unimplemented productions such as C expressions). -/
theorem C1_totality_amended :
    escapesAsAmended (parse_module 100 tu_empty) = true ∧
    escapesAsAmended (parse_module 100 tu_a_unsized) = true ∧
    escapesAsAmended (parse_module 100 tu_a10) = true ∧
    escapesAsAmended (parse_module 100 tu_a_static10) = true ∧
    escapesAsAmended (parse_module 100 tu_struct_ifdef_empty) = true ∧
    escapesAsAmended (parse_module 100 tu_struct_ifdef_field) = true ∧
    escapesAsAmended (parse_module 100 tu_struct_if_elif_empty) = true ∧
    escapesAsAmended (parse_module 100 tu_struct_if_else_empty) = true ∧
    escapesAsAmended (parse_module 100 tu_enum_if_empty) = true ∧
    escapesAsAmended (parse_module 100 tu_if_elif) = true ∧
    escapesAsAmended (parse_module 100 tu_if_plain) = true ∧
    escapesAsAmended (parse_module 100 tu_if_elifdef) = true ∧
    escapesAsAmended (parse_module 100 tu_struct_elifdef) = true ∧
    escapesAsAmended (parse_module 100 tu_enum_elifdef) = true ∧
    escapesAsAmended (parse_module 100 tu_struct_bare) = true ∧
    escapesAsAmended (parse_module 100 tu_enum_bare) = true ∧
    escapesAsAmended (parse_module 100 tu_struct_tag) = true ∧
    escapesAsAmended (parse_module 100 tu_struct_body) = true ∧
    escapesAsAmended (parse_module 100 tu_enum_tag) = true ∧
    escapesAsAmended (parse_module 100 tu_enum_list) = true :=
  ⟨rfl, rfl, rfl, rfl, rfl, rfl, rfl, rfl, rfl, rfl, rfl, rfl, rfl, rfl, rfl,
    rfl, rfl, rfl, rfl, rfl⟩

/-- C2: the claim says an empty translation unit lowers to an empty
`TranslationUnit` with the whole-file range.  The source's empty-unit
guard tests `self._cursor.node is None` — which is dead right after
`assert tu is not None` — instead of the child count, so
`goto_first_child()` fails, the loop runs on the root itself, and
lowering raises `CodeError("unsupported node type: translation_unit")`
at the root's range.  The code contradicts the intent its own guard
documents, so this is a code bug; this theorem evaluates the code at the
failing input. -/
theorem C2_empty_unit_bug :
    parse_module 100 tu_empty =
      .error (.codeError "unsupported node type: translation_unit"
        (rangeOf tu_empty)) := rfl

/-- C3 (counterexample): the claim says `int a[10];` classifies its
array size as `VariableExpression`.  Lowering that input instead raises
`NotImplementedError`: the classification's expression test is the
unimplemented `_is_c_expression`. -/
theorem C3_counterexample :
    parse_module 100 tu_a10 = .error .notImplemented := rfl

/-- C3 (amended): the four-way decision order (`*`, then `static`, then
qualifier, then expression) is present in
`_consume_tree_sitter_array_declarator`, but every path that needs the
expression predicate or consumer raises `NotImplementedError`, so
`int a[];`, `int a[10];` and `int a[static 10];` all abort with
`NotImplementedError` instead of classifying as Unknown,
VariableExpression and StaticExpression. -/
theorem C3_array_size_amended :
    parse_module 100 tu_a_unsized = .error .notImplemented ∧
    parse_module 100 tu_a10 = .error .notImplemented ∧
    parse_module 100 tu_a_static10 = .error .notImplemented :=
  ⟨rfl, rfl, rfl⟩

/-- C4 (counterexample): the claim says a macro-conditional group's body
list is `None` when the guarded region is empty and never an empty
sequence.  Lowering `struct S { #ifdef F #endif };` yields an
`#ifdef` head group whose `declarations` field is `some []` — the empty
sequence — because `_consume_preproc_field_declaratin_ifdef_group`
passes the raw list to the constructor. -/
theorem C4_counterexample :
    cond_if_group_decls (parse_module 100 tu_struct_ifdef_empty) =
      some (some []) := rfl

/-- C4 (amended): the struct-field `#elif`/`#else` groups and the
enumerator groups do normalize an empty body to `None`, but the
struct-field `#if`/`#ifdef` head groups keep the possibly-empty list:
an empty guarded region there yields `declarations = []`, and a
one-field region yields a one-element list. -/
theorem C4_group_body_amended :
    cond_if_group_size (parse_module 100 tu_struct_ifdef_empty) =
      some (some 0) ∧
    cond_if_group_size (parse_module 100 tu_struct_ifdef_field) =
      some (some 1) ∧
    cond_elif_group_decls (parse_module 100 tu_struct_if_elif_empty) =
      some none ∧
    cond_else_group_decls (parse_module 100 tu_struct_if_else_empty) =
      some none ∧
    enum_if_group_enums (parse_module 100 tu_enum_if_empty) = some none :=
  ⟨rfl, rfl, rfl, rfl, rfl⟩

/-- C5 (counterexample): the claim says a top-level node whose subtree
has a syntax error and that no fixer resolves aborts lowering with a
`CodeError` naming the node type and range.  On such an input the
lowering instead raises `NotImplementedError`: `_try_fix_error` raises
before it can return `False`, so the `CodeError` construction is
unreachable. -/
theorem C5_counterexample :
    parse_module 100 tu_err = .error .notImplemented ∧
    errMsg? (parse_module 100 tu_err) = none := ⟨rfl, rfl⟩

/-- C5 (amended): for every translation unit whose first top-level node
reports a subtree error, `parse_module` aborts the whole unit by raising
`NotImplementedError` from the unimplemented repair step
(`_try_fix_error`); no partial tree is returned and the
`CodeError`-naming-the-node path is dead code. -/
theorem C5_error_abort_amended (fuel : Nat) (tx : String) (he : Bool)
    (l1 l2 : Loc) (c : TS) (cs : List TS) (h : c.hasErr = true) :
    parse_module (fuel + 2) (.node "translation_unit" tx he l1 l2 (c :: cs)) =
      .error .notImplemented := by
  cases c with
  | node cty ctx che ca cb ccs =>
    simp only [TS.hasErr] at h
    simp [parse_module, top_level_loop, descend, try_fix_error, TS.ty,
      TS.children, TS.hasErr, h, M.error_bind]

/-- C5 (witness): the amended theorem applied to a concrete erroring
unit. -/
theorem C5_witness :
    parse_module 2 (.node "translation_unit" "" false ⟨0, 0⟩ ⟨0, 0⟩
      [.node "declaration" "" true ⟨0, 0⟩ ⟨0, 0⟩ []]) =
      .error .notImplemented :=
  C5_error_abort_amended 0 "" false ⟨0, 0⟩ ⟨0, 0⟩
    (.node "declaration" "" true ⟨0, 0⟩ ⟨0, 0⟩ []) [] rfl

/-- The parent node of the cursor-contract counterexample: its single
child is an `#endif` token, i.e. a last sibling. -/
def c6_parent : TS := nd "p" [tok "#endif"]

/-- C6 (counterexample): the claim says every consume operation ends
with the cursor on the next sibling of the consumed node.  Consuming a
node that is the last sibling returns normally with the cursor still on
that very node (`goto_next_sibling` fails and leaves the cursor in
place), so the stated postcondition does not hold there. -/
theorem C6_counterexample :
    consume_node_with_type_cursor "#endif" ⟨c6_parent, [0]⟩ =
      .ok (⟨c6_parent, [0]⟩ : Cursor) ∧
    Cursor.node ⟨c6_parent, [0]⟩ = some (tok "#endif") := ⟨rfl, rfl⟩

/-- C6 (amended): the cursor contract of the consume primitive
`_consume_node_with_type`, on which the engine's token consumes are
built: entered on a matching node, it returns normally with the cursor
on the node's next sibling when one exists, and with the cursor still on
the node itself when it was the last sibling. -/
theorem C6_cursor_contract_amended (root parent n : TS) (ps : List Nat)
    (i : Nat) (ty : String)
    (hp : nodeAtPath root ps = some parent)
    (hn : childAt parent.children i = some n)
    (hty : n.ty = ty) :
    (∀ sib, childAt parent.children (i + 1) = some sib →
      consume_node_with_type_cursor ty ⟨root, i :: ps⟩ =
        .ok (⟨root, (i + 1) :: ps⟩ : Cursor) ∧
      Cursor.node ⟨root, (i + 1) :: ps⟩ = some sib) ∧
    (childAt parent.children (i + 1) = none →
      consume_node_with_type_cursor ty ⟨root, i :: ps⟩ =
        .ok (⟨root, i :: ps⟩ : Cursor)) := by
  constructor
  · intro sib hs
    constructor
    · simp [consume_node_with_type_cursor, Cursor.node, nodeAtPath,
        gotoNextSibling, hp, hn, hty, hs]
    · simp [Cursor.node, nodeAtPath, hp, hs]
  · intro hs
    simp [consume_node_with_type_cursor, Cursor.node, nodeAtPath,
      gotoNextSibling, hp, hn, hty, hs]

/-- C6 (witness): the amended contract applied at a concrete two-child
tree, advancing from the first child to its next sibling. -/
theorem C6_witness :
    consume_node_with_type_cursor "a" ⟨nd "d" [tok "a", tok "b"], [0]⟩ =
      .ok (⟨nd "d" [tok "a", tok "b"], [1]⟩ : Cursor) ∧
    Cursor.node ⟨nd "d" [tok "a", tok "b"], [1]⟩ = some (tok "b") :=
  (C6_cursor_contract_amended (nd "d" [tok "a", tok "b"])
    (nd "d" [tok "a", tok "b"]) (tok "a") [] 0 "a" rfl rfl rfl).1
    (tok "b") rfl

/-- C7: the claim says a top-level `#if` section with `#elif` groups
lowers to an `IfSectionDirective` with one `ElifDirective` per `#elif`,
without raising.  `TreeSitterPreprocessElseType.Elif` misspells the node
type as `proproc_elif`, so `_is_preprocess_elif` never matches a real
`preproc_elif` node and `_parse_preprocess_if_section` instead fails to
find `#endif` and raises a `CodeError` — while the same section without
an `#elif` lowers fine (with zero elif groups).  The claim matches the
source's clearly intended behaviour (the same enum spells
`preproc_else` correctly and the code consumes elif groups right after
the head), so this is a code bug; this theorem evaluates the code at the
failing input. -/
theorem C7_elif_typo_bug :
    errMsg? (parse_module 100 tu_if_elif) =
      some "expect node with type #endif" ∧
    isOk (parse_module 100 tu_if_plain) = true ∧
    if_section_elif_count (parse_module 100 tu_if_plain) = some 0 :=
  ⟨rfl, rfl, rfl⟩

/-- C8: an `#elifdef` directive raises a `CodeError` in each of the
three contexts — at top level (the never-matched alternative leaves the
`#endif` consume to fail), inside a struct field-declaration list, and
inside an enumerator list (both via the explicit
`#elifdef`-is-not-supported checks). -/
theorem C8_elifdef_rejected :
    errMsg? (parse_module 100 tu_if_elifdef) =
      some "expect node with type #endif" ∧
    errMsg? (parse_module 100 tu_struct_elifdef) =
      some "#elifdef or #elifndef is not supported" ∧
    errMsg? (parse_module 100 tu_enum_elifdef) =
      some "#elifdef and #elifndef is not supported" := ⟨rfl, rfl, rfl⟩

/-- C9: a struct specifier with neither tag nor field list and an enum
specifier with neither tag nor enumerator list each raise the dedicated
`CodeError`, while the four one-sided variants (tag only, body only)
lower without raising. -/
theorem C9_tag_or_body_required :
    errMsg? (parse_module 100 tu_struct_bare) =
      some "both identifier and declaration list of struct are empty" ∧
    errMsg? (parse_module 100 tu_enum_bare) =
      some "missing both enum name and enumerator list" ∧
    isOk (parse_module 100 tu_struct_tag) = true ∧
    isOk (parse_module 100 tu_struct_body) = true ∧
    isOk (parse_module 100 tu_enum_tag) = true ∧
    isOk (parse_module 100 tu_enum_list) = true :=
  ⟨rfl, rfl, rfl, rfl, rfl, rfl⟩

/-- C10: `_consume_c_primitive_type_specifier` compares the raw token
string with `TreeSitterCPrimitivType` enum members rather than their
string values, so every branch guard is false and every
`primitive_type` node — `int`, `char`, `float`, `double`, `void`
included — lowers to a `TypedefName` wrapping the raw token, never to a
`PrimitiveTypeSpecifier`. -/
theorem C10_primitive_typedef (t : TS) (rest : List TS)
    (h : t.ty = "primitive_type") :
    consume_c_primitive_type_specifier ⟨t, rest⟩ =
      .ok (.typedefName (rangeOf t) t.text, adv ⟨t, rest⟩) := by
  simp [consume_c_primitive_type_specifier, is_c_primitive_type_specifier,
    consume_raw_content, pyEq, h]

/-- C10 (witness): the theorem applied to a concrete `int` token. -/
theorem C10_witness :
    consume_c_primitive_type_specifier ⟨ndt "primitive_type" "int" [], []⟩ =
      .ok (.typedefName (rangeOf (ndt "primitive_type" "int" []))
        (ndt "primitive_type" "int" []).text,
        adv ⟨ndt "primitive_type" "int" [], []⟩) :=
  C10_primitive_typedef (ndt "primitive_type" "int" []) [] rfl
